import Mathlib

/-!
Shallow embedding of the admin client of `ca/adminClient.go` together with the
fragment of `acme/db.go` vocabulary it needs.  Effects are made explicit: the
client record carries the mutable state the Go code keeps behind the
`AdminClient` pointer (the current transport and the stored construction
options), and an environment record supplies, for one logical call, the
outcome of every `client.Do`/`client.Get`, the result of a transport rebuild
attempted by `retryOnError`, and the value drawn by `randutil.Hex`.  Every
operation returns the ordered trace of outbound requests it issued, the final
client state, and the result the Go function returns.
-/

namespace AdminClientGo

/-- Opaque construction option (`ClientOption` in the Go code).  The model
never inspects these values; `retryOnError` hands the stored list back to the
environment's transport rebuild function, mirroring `o.apply(c.opts)`. -/
abbrev ClientOption := Nat

/-- Retry predicate over HTTP status codes (`RetryFunc` in the Go code). -/
abbrev RetryFunc := Nat → Bool

/-- Abstract transport handle identity: the model only tracks which handle is
current, which is all the claims observe. -/
abbrev Transport := Nat

/-- Opaque admin record (`linkedca.Admin`): the client only marshals and
unmarshals it, so it is modelled as an opaque value. -/
structure Admin where
  data : String
deriving DecidableEq, Repr

/-- Opaque provisioner record (`linkedca.Provisioner`). -/
structure Provisioner where
  data : String
deriving DecidableEq, Repr

/-- The part of `net/url.URL` the client builds: path and raw query.  The
endpoint's own path is modelled as the root, so `ResolveReference` only has to
absolutize relative paths. -/
structure URL where
  path : String
  rawQuery : String
deriving DecidableEq, Repr

/-- Model of Go's `path.Join` on the inputs the client uses (no `.` or `..`
segments, no duplicate slashes): empty elements are dropped and the rest are
joined with a slash. -/
def pathJoin (elems : List String) : String :=
  String.intercalate "/" (elems.filter (fun s => s ≠ ""))

/-- Model of `c.endpoint.ResolveReference` for an endpoint whose path is the
root: an absolute reference path (leading slash) is kept, a relative one
gains the leading slash. -/
def resolveRef (ref : URL) : URL :=
  match ref.path.data with
  | '/' :: _ => ref
  | _ => { ref with path := "/" ++ ref.path }

/-- Model of `url.Values.Encode` on an association list whose keys are already
in the alphabetical order `Encode` sorts into.  Percent-escaping of values is
not modelled; no claim depends on it. -/
def queryEncode (kvs : List (String × String)) : String :=
  String.intercalate "&" (kvs.map (fun kv => kv.1 ++ "=" ++ kv.2))

/-- The `AdminClient` structure of the Go code.  `transport` stands for the
`uaClient`'s current transport; `opts` is the stored `[]ClientOption`;
`x5cKid` stands for `c.x5cJWK.KeyID`.  The signing key itself never appears in
any claim and is elided. -/
structure AdminClient where
  retryFunc : Option RetryFunc
  transport : Transport
  opts : List ClientOption
  x5cKid : String
  x5cIssuer : String
  x5cSubject : String
  x5cCertStrs : List String

/-- Modelled from the spec: `token.DefaultValidity` lives in the external
`go.step.sm/cli-utils/token` package; the spec only requires a fixed positive
default duration, here five minutes in seconds. -/
def DefaultValidity : Nat := 300

/-- The argument the client passes to `randutil.Hex` (source line 75:
`randutil.Hex(64) // 256 bits`): 64 hexadecimal characters. -/
def randutilHexLen : Nat := 64

/-- The claims of the admin token built by `generateAdminToken` (the signed
JWT is identified with its claim set; signing is injective on it). -/
structure AdminToken where
  jwtID : String
  kid : String
  issuer : String
  subject : String
  audience : String
  notBefore : Nat
  notAfter : Nat
  x5cCerts : List String
deriving DecidableEq, Repr

/-- The error values the client surfaces, by provenance. -/
inductive AdminClientError where
  /-- An option function returned an error, or the GetProvisioner and
  RemoveProvisioner selector check failed (`must set either name or id`). -/
  | optionErr (msg : String)
  /-- `generateAdminToken` failed (`error generating admin token`). -/
  | tokenErr
  /-- `client.Do`/`client.Get` returned a transport-level error, wrapped as
  in `client GET %s failed`. -/
  | transportErr (u : URL) (msg : String)
  /-- `readAdminError` decoded an `admin.Error` body and returned
  `errors.New(adminErr.Message)`. -/
  | serverErr (msg : String)
  /-- `readAdminError` could not decode the body as an `admin.Error`. -/
  | bodyDecodeErr
  /-- `readProtoJSON`/`readJSON` failed on a success body (`error reading %s`). -/
  | readErr (u : URL)
  /-- Model artifact: the environment supplied no outcome for an issued call. -/
  | noResponse
deriving DecidableEq, Repr

/-- A response body, classified by what it decodes as.  The classification is
a model choice: each constructor stands for the class of byte streams that the
corresponding Go decoder accepts. -/
inductive Body where
  /-- A body that `json.Decode` parses as an `admin.Error` with this message. -/
  | adminErrBody (message : String)
  /-- A body that `readProtoJSON` parses as a `linkedca.Admin`. -/
  | adminBody (a : Admin)
  /-- A body that `readJSON` parses as an `adminAPI.GetAdminsResponse`. -/
  | adminsPageBody (admins : List Admin) (nextCursor : String)
  /-- A body that `readProtoJSON` parses as a `linkedca.Provisioner`. -/
  | provBody (p : Provisioner)
  /-- A body that `readJSON` parses as an `adminAPI.GetProvisionersResponse`. -/
  | provsPageBody (provisioners : List Provisioner) (nextCursor : String)
  /-- Any other body. -/
  | otherBody (s : String)
deriving DecidableEq, Repr

/-- `readAdminError` (source lines 563-570): decode the body as an
`admin.Error` and surface its message, else surface the decode failure.  The
Go code also closes the reader; body closure is tracked in `RetryOutcome`
where the claims observe it. -/
def readAdminError : Body → AdminClientError
  | .adminErrBody msg => .serverErr msg
  | _ => .bodyDecodeErr

/-- Modelled from the spec: `readProtoJSON` into a `linkedca.Admin` (the
helper itself is outside this slice); a body of any other class fails to
decode and is wrapped as `error reading %s`. -/
def readProtoJSONAdmin (u : URL) : Body → Except AdminClientError Admin
  | .adminBody a => .ok a
  | _ => .error (.readErr u)

/-- Modelled from the spec: `readProtoJSON` into a `linkedca.Provisioner`. -/
def readProtoJSONProv (u : URL) : Body → Except AdminClientError Provisioner
  | .provBody p => .ok p
  | _ => .error (.readErr u)

/-- `adminAPI.GetAdminsResponse`: one page of admins plus the next cursor. -/
structure GetAdminsResponse where
  admins : List Admin
  nextCursor : String
deriving DecidableEq, Repr

/-- `adminAPI.GetProvisionersResponse`: one page of provisioners plus the
next cursor. -/
structure GetProvisionersResponse where
  provisioners : List Provisioner
  nextCursor : String
deriving DecidableEq, Repr

/-- Modelled from the spec: `readJSON` into a `GetAdminsResponse`. -/
def readJSONAdminsPage (u : URL) : Body → Except AdminClientError GetAdminsResponse
  | .adminsPageBody admins next => .ok ⟨admins, next⟩
  | _ => .error (.readErr u)

/-- Modelled from the spec: `readJSON` into a `GetProvisionersResponse`. -/
def readJSONProvsPage (u : URL) : Body → Except AdminClientError GetProvisionersResponse
  | .provsPageBody provs next => .ok ⟨provs, next⟩
  | _ => .error (.readErr u)

/-- `generateAdminToken` (source lines 73-97).  `hexDraw` is the
environment's model of `randutil.Hex`; the function draws `randutilHexLen`
hexadecimal characters for the JWT id, exactly as the source does, and fails
when the draw fails.  `now` is the environment's `time.Now()`. -/
def generateAdminToken (c : AdminClient) (urlPath : String)
    (hexDraw : Nat → Option String) (now : Nat) : Except AdminClientError AdminToken :=
  match hexDraw randutilHexLen with
  | none => .error .tokenErr
  | some jwtID =>
      .ok { jwtID := jwtID
            kid := c.x5cKid
            issuer := c.x5cIssuer
            subject := c.x5cSubject
            audience := urlPath
            notBefore := now
            notAfter := now + DefaultValidity
            x5cCerts := c.x5cCertStrs }

/-- An outbound HTTP request as the model observes it.  `authToken` is the
minted token attached as the `Authorization` header, `none` when no such
header was added. -/
structure Request where
  method : String
  url : URL
  authToken : Option AdminToken
  body : Option String
deriving DecidableEq, Repr

/-- The outcome the environment supplies for one `client.Do`/`client.Get`:
either a transport-level error with no response, or a response with a status
code and a body. -/
inductive HttpOutcome where
  | transportFail (msg : String)
  | response (status : Nat) (body : Body)

/-- A transport rebuild attempt: `o.apply(c.opts)` followed by
`o.getTransport(endpoint)` (both outside this slice, so modelled from the
spec as one environment function from the stored options to an optional new
transport; `none` covers either step failing). -/
abbrev RebuildFn := List ClientOption → Option Transport

/-- What `retryOnError` leaves behind: its return value, the client state
after a possible `SetTransport`, and whether it closed the failed response
body. -/
structure RetryOutcome where
  retry : Bool
  client : AdminClient
  bodyClosed : Bool

/-- `retryOnError` (source lines 99-116): with no retry predicate configured
return false; with one, and a status it recognizes, rebuild the transport
from the stored construction options, returning false if the rebuild fails,
and otherwise close the failed body, swap the transport in, and return
true. -/
def retryOnError (c : AdminClient) (status : Nat) (rebuild : RebuildFn) : RetryOutcome :=
  match c.retryFunc with
  | some f =>
      if f status then
        match rebuild c.opts with
        | none => ⟨false, c, false⟩
        | some tr => ⟨true, { c with transport := tr }, true⟩
      else ⟨false, c, false⟩
  | none => ⟨false, c, false⟩

/-- The per-call HTTP environment: the successive outcomes of the calls the
operation issues, and the transport rebuild function consulted if
`retryOnError` attempts a rebuild. -/
structure HttpEnv where
  outcomes : List HttpOutcome
  rebuild : RebuildFn

/-- The full environment of one logical operation: the `randutil.Hex` draw
for its (single) token mint, the `time.Now()` at the mint, and the HTTP
environment. -/
structure OpEnv where
  hexDraw : Nat → Option String
  now : Nat
  http : HttpEnv

/-- The shared send-and-maybe-retry block every operation ends in
(`retry: resp, err := c.client.Do(req); ...` plus the `goto retry` guarded by
the `retried` flag).  The request replayed after a retry decision is the very
`req` built before the `retry:` label — same body, same `Authorization`
header.  The at-most-one `goto` lets the loop be unrolled.  Result: the trace
of issued requests, the final client, and either the successful body or the
surfaced error. -/
def execWithRetry (c : AdminClient) (req : Request) (env : HttpEnv) :
    List Request × AdminClient × Except AdminClientError Body :=
  match env.outcomes with
  | [] => ([req], c, .error .noResponse)
  | .transportFail msg :: _ => ([req], c, .error (.transportErr req.url msg))
  | .response status body :: rest =>
      if 400 ≤ status then
        let ro := retryOnError c status env.rebuild
        if ro.retry then
          match rest with
          | [] => ([req, req], ro.client, .error .noResponse)
          | .transportFail msg :: _ => ([req, req], ro.client, .error (.transportErr req.url msg))
          | .response status2 body2 :: _ =>
              if 400 ≤ status2 then ([req, req], ro.client, .error (readAdminError body2))
              else ([req, req], ro.client, .ok body2)
        else ([req], c, .error (readAdminError body))
      else ([req], c, .ok body)

/-- Admin method options (source lines 144-147); `limit` is a Go `int`. -/
structure adminOptions where
  cursor : String := ""
  limit : Int := 0
deriving DecidableEq, Repr

/-- `AdminOption` (source line 142): a fallible update of `adminOptions`. -/
abbrev AdminOption := adminOptions → Except String adminOptions

/-- `(*adminOptions).apply` (source lines 149-156): fold the option
functions, stopping at the first error. -/
def adminOptions.applyAll (o : adminOptions) : List AdminOption → Except String adminOptions
  | [] => .ok o
  | fn :: rest =>
      match fn o with
      | .error e => .error e
      | .ok o2 => adminOptions.applyAll o2 rest

/-- `(*adminOptions).rawQuery` (source lines 158-167): the cursor when
non-empty and the limit when positive, in the alphabetical key order
`url.Values.Encode` produces. -/
def adminOptions.rawQuery (o : adminOptions) : String :=
  queryEncode
    ((if 0 < o.cursor.length then [("cursor", o.cursor)] else []) ++
      (if 0 < o.limit then [("limit", toString o.limit)] else []))

/-- `WithAdminCursor` (source lines 169-175). -/
def WithAdminCursor (cursor : String) : AdminOption :=
  fun o => .ok { o with cursor := cursor }

/-- `WithAdminLimit` (source lines 177-183). -/
def WithAdminLimit (limit : Int) : AdminOption :=
  fun o => .ok { o with limit := limit }

/-- Modelled from the spec: `provisionerOptions` is defined outside this
slice; per the spec's configuration record it carries the pagination cursor
and limit plus the `id`/`name` selector pair used by `GetProvisioner` and
`RemoveProvisioner`. -/
structure provisionerOptions where
  cursor : String := ""
  limit : Int := 0
  id : String := ""
  name : String := ""
deriving DecidableEq, Repr

/-- `ProvisionerOption`: a fallible update of `provisionerOptions`. -/
abbrev ProvisionerOption := provisionerOptions → Except String provisionerOptions

/-- Modelled from the spec: `(*provisionerOptions).apply`, folding the
option functions and stopping at the first error. -/
def provisionerOptions.applyAll (o : provisionerOptions) :
    List ProvisionerOption → Except String provisionerOptions
  | [] => .ok o
  | fn :: rest =>
      match fn o with
      | .error e => .error e
      | .ok o2 => provisionerOptions.applyAll o2 rest

/-- Modelled from the spec: `(*provisionerOptions).rawQuery` encodes the
cursor, the id selector, and the limit when set, in the alphabetical key
order `url.Values.Encode` produces. -/
def provisionerOptions.rawQuery (o : provisionerOptions) : String :=
  queryEncode
    ((if 0 < o.cursor.length then [("cursor", o.cursor)] else []) ++
      (if 0 < o.id.length then [("id", o.id)] else []) ++
      (if 0 < o.limit then [("limit", toString o.limit)] else []))

/-- Modelled from the spec: `WithProvisionerCursor`. -/
def WithProvisionerCursor (cursor : String) : ProvisionerOption :=
  fun o => .ok { o with cursor := cursor }

/-- Modelled from the spec: `WithProvisionerLimit`. -/
def WithProvisionerLimit (limit : Int) : ProvisionerOption :=
  fun o => .ok { o with limit := limit }

/-- Modelled from the spec: `WithProvisionerID`, setting the id selector. -/
def WithProvisionerID (id : String) : ProvisionerOption :=
  fun o => .ok { o with id := id }

/-- Modelled from the spec: `WithProvisionerName`, setting the name
selector. -/
def WithProvisionerName (name : String) : ProvisionerOption :=
  fun o => .ok { o with name := name }

/-- The decode tail every operation shares verbatim in the source: run the
send-and-retry block and, on a success body, apply the operation's decoder. -/
def finishExec {α : Type} (c : AdminClient) (req : Request) (env : HttpEnv)
    (decode : Body → Except AdminClientError α) :
    List Request × AdminClient × Except AdminClientError α :=
  let (trace, c2, r) := execWithRetry c req env
  match r with
  | .error e => (trace, c2, .error e)
  | .ok b => (trace, c2, decode b)

/-- The mint-and-send tail shared verbatim by the nine token-minting
operations in the source: mint a token for the target path, fail the call if
minting fails, otherwise attach the token as the `Authorization` header of
the request and run the send-and-retry block with the operation's decoder. -/
def mintAndSend {α : Type} (c : AdminClient) (method : String) (u : URL)
    (body : Option String) (env : OpEnv) (decode : Body → Except AdminClientError α) :
    List Request × AdminClient × Except AdminClientError α :=
  match generateAdminToken c u.path env.hexDraw env.now with
  | .error e => ([], c, .error e)
  | .ok tok => finishExec c ⟨method, u, some tok, body⟩ env.http decode

/-- `GetAdmin` (source lines 118-139).  Note: the source issues a bare
`c.client.Get(u.String())` — no token is minted and no `Authorization`
header is attached for this one operation. -/
def GetAdmin (c : AdminClient) (id : String) (env : OpEnv) :
    List Request × AdminClient × Except AdminClientError Admin :=
  let u := resolveRef { path := pathJoin ["admin", "admins", id], rawQuery := "" }
  let req : Request := { method := "GET", url := u, authToken := none, body := none }
  finishExec c req env.http (readProtoJSONAdmin u)

/-- `GetAdminsPaginate` (source lines 185-222): apply the options, build
`/admin/admins` with their raw query, mint a token for the path, send with
the retry block, and decode a `GetAdminsResponse`. -/
def GetAdminsPaginate (c : AdminClient) (opts : List AdminOption) (env : OpEnv) :
    List Request × AdminClient × Except AdminClientError GetAdminsResponse :=
  match adminOptions.applyAll {} opts with
  | .error e => ([], c, .error (.optionErr e))
  | .ok o =>
      let u := resolveRef { path := "/admin/admins", rawQuery := o.rawQuery }
      mintAndSend c "GET" u none env (readJSONAdminsPage u)

/-- The loop body of `GetAdmins` (source lines 230-240), recursing on the
per-page environments: fetch a page with the relayed cursor and limit 100,
abort on error, append the page's admins, and stop when the next cursor is
empty. -/
def GetAdminsAux (c : AdminClient) (cursor : String) (admins : List Admin) :
    List OpEnv → List (List Request) × AdminClient × Except AdminClientError (List Admin)
  | [] => ([], c, .error .noResponse)
  | env :: rest =>
      let (trace, c2, r) := GetAdminsPaginate c [WithAdminCursor cursor, WithAdminLimit 100] env
      match r with
      | .error e => ([trace], c2, .error e)
      | .ok resp =>
          let admins2 := admins ++ resp.admins
          if resp.nextCursor = "" then ([trace], c2, .ok admins2)
          else
            let (traces, c3, res) := GetAdminsAux c2 resp.nextCursor admins2 rest
            (trace :: traces, c3, res)

/-- `GetAdmins` (source lines 224-241).  The caller's options are received
and never consulted, exactly as in the source; the loop starts from the
empty cursor and an empty accumulator. -/
def GetAdmins (c : AdminClient) (opts : List AdminOption) (envs : List OpEnv) :
    List (List Request) × AdminClient × Except AdminClientError (List Admin) :=
  GetAdminsAux c "" [] envs

/-- `CreateAdmin` (source lines 243-277) on an already-marshaled request
body: build `/admin/admins`, mint a token for the path, POST with the retry
block, and decode a `linkedca.Admin`. -/
def CreateAdmin (c : AdminClient) (reqBody : String) (env : OpEnv) :
    List Request × AdminClient × Except AdminClientError Admin :=
  let u := resolveRef { path := "/admin/admins", rawQuery := "" }
  mintAndSend c "POST" u (some reqBody) env (readProtoJSONAdmin u)

/-- `RemoveAdmin` (source lines 279-305): DELETE `/admin/admins/{id}` with a
minted token and the retry block; a success body is discarded. -/
def RemoveAdmin (c : AdminClient) (id : String) (env : OpEnv) :
    List Request × AdminClient × Except AdminClientError Unit :=
  let u := resolveRef { path := pathJoin ["admin", "admins", id], rawQuery := "" }
  mintAndSend c "DELETE" u none env (fun _ => .ok ())

/-- `UpdateAdmin` (source lines 307-341) on an already-marshaled body: PATCH
`/admin/admins/{id}` with a minted token and the retry block, decoding a
`linkedca.Admin`. -/
def UpdateAdmin (c : AdminClient) (id : String) (reqBody : String) (env : OpEnv) :
    List Request × AdminClient × Except AdminClientError Admin :=
  let u := resolveRef { path := pathJoin ["admin", "admins", id], rawQuery := "" }
  mintAndSend c "PATCH" u (some reqBody) env (readProtoJSONAdmin u)

/-- `GetProvisioner` (source lines 343-388): apply the options; with an id
set target `/admin/provisioners/id` with the raw query, else with a name set
target `/admin/provisioners/{name}`, else fail locally; then mint a token
for the path, GET with the retry block, and decode a
`linkedca.Provisioner`. -/
def GetProvisioner (c : AdminClient) (opts : List ProvisionerOption) (env : OpEnv) :
    List Request × AdminClient × Except AdminClientError Provisioner :=
  match provisionerOptions.applyAll {} opts with
  | .error e => ([], c, .error (.optionErr e))
  | .ok o =>
      let u? : Except AdminClientError URL :=
        if 0 < o.id.length then
          .ok (resolveRef { path := "/admin/provisioners/id", rawQuery := o.rawQuery })
        else if 0 < o.name.length then
          .ok (resolveRef { path := pathJoin ["admin", "provisioners", o.name], rawQuery := "" })
        else .error (.optionErr "must set either name or id in method options")
      match u? with
      | .error e => ([], c, .error e)
      | .ok u => mintAndSend c "GET" u none env (readProtoJSONProv u)

/-- `GetProvisionersPaginate` (source lines 390-427): apply the options,
build `/admin/provisioners` with their raw query, mint a token for the path,
GET with the retry block, and decode a `GetProvisionersResponse`. -/
def GetProvisionersPaginate (c : AdminClient) (opts : List ProvisionerOption) (env : OpEnv) :
    List Request × AdminClient × Except AdminClientError GetProvisionersResponse :=
  match provisionerOptions.applyAll {} opts with
  | .error e => ([], c, .error (.optionErr e))
  | .ok o =>
      let u := resolveRef { path := "/admin/provisioners", rawQuery := o.rawQuery }
      mintAndSend c "GET" u none env (readJSONProvsPage u)

/-- The loop body of `GetProvisioners` (source lines 435-445), recursing on
the per-page environments. -/
def GetProvisionersAux (c : AdminClient) (cursor : String) (provs : List Provisioner) :
    List OpEnv → List (List Request) × AdminClient × Except AdminClientError (List Provisioner)
  | [] => ([], c, .error .noResponse)
  | env :: rest =>
      let (trace, c2, r) :=
        GetProvisionersPaginate c [WithProvisionerCursor cursor, WithProvisionerLimit 100] env
      match r with
      | .error e => ([trace], c2, .error e)
      | .ok resp =>
          let provs2 := provs ++ resp.provisioners
          if resp.nextCursor = "" then ([trace], c2, .ok provs2)
          else
            let (traces, c3, res) := GetProvisionersAux c2 resp.nextCursor provs2 rest
            (trace :: traces, c3, res)

/-- `GetProvisioners` (source lines 429-446).  As in the source, the caller's
options (of type `AdminOption`, as written in the Go signature) are received
and never consulted. -/
def GetProvisioners (c : AdminClient) (opts : List AdminOption) (envs : List OpEnv) :
    List (List Request) × AdminClient × Except AdminClientError (List Provisioner) :=
  GetProvisionersAux c "" [] envs

/-- `RemoveProvisioner` (source lines 448-493): same selector switch as
`GetProvisioner` (the id branch joins `admin` with `provisioners/id`),
then DELETE with a minted token and the retry block. -/
def RemoveProvisioner (c : AdminClient) (opts : List ProvisionerOption) (env : OpEnv) :
    List Request × AdminClient × Except AdminClientError Unit :=
  match provisionerOptions.applyAll {} opts with
  | .error e => ([], c, .error (.optionErr e))
  | .ok o =>
      let u? : Except AdminClientError URL :=
        if 0 < o.id.length then
          .ok (resolveRef { path := pathJoin ["admin", "provisioners/id"], rawQuery := o.rawQuery })
        else if 0 < o.name.length then
          .ok (resolveRef { path := pathJoin ["admin", "provisioners", o.name], rawQuery := "" })
        else .error (.optionErr "must set either name or id in method options")
      match u? with
      | .error e => ([], c, .error e)
      | .ok u => mintAndSend c "DELETE" u none env (fun _ => .ok ())

/-- Marshaling of a provisioner by `protojson.Marshal`: on the opaque record
it is the identity on the payload. -/
def protojsonMarshal (p : Provisioner) : String := p.data

/-- `CreateProvisioner` (source lines 495-529): POST the marshaled
provisioner to `/admin/provisioners` with a minted token and the retry
block, decoding a `linkedca.Provisioner`. -/
def CreateProvisioner (c : AdminClient) (prov : Provisioner) (env : OpEnv) :
    List Request × AdminClient × Except AdminClientError Provisioner :=
  let u := resolveRef { path := pathJoin ["admin", "provisioners"], rawQuery := "" }
  mintAndSend c "POST" u (some (protojsonMarshal prov)) env (readProtoJSONProv u)

/-- `UpdateProvisioner` (source lines 531-561): PUT the marshaled
provisioner to `/admin/provisioners/{name}` with a minted token and the
retry block; a success body is discarded. -/
def UpdateProvisioner (c : AdminClient) (name : String) (prov : Provisioner) (env : OpEnv) :
    List Request × AdminClient × Except AdminClientError Unit :=
  let u := resolveRef { path := pathJoin ["admin", "provisioners", name], rawQuery := "" }
  mintAndSend c "PUT" u (some (protojsonMarshal prov)) env (fun _ => .ok ())

/-! Helper lemmas shared by the claim theorems. -/

/-- A non-empty string has positive length. -/
theorem String.length_pos_of_ne_empty {s : String} (h : s ≠ "") : 0 < s.length := by
  rcases s with ⟨l⟩
  rcases l with _ | ⟨a, l⟩
  · exact absurd rfl h
  · simp [String.length]

/-- The send-and-retry block issues at most two requests: the original and at
most one replay. -/
theorem execWithRetry_length_le (c : AdminClient) (req : Request) (env : HttpEnv) :
    (execWithRetry c req env).1.length ≤ 2 := by
  unfold execWithRetry
  rcases env with ⟨outcomes, rb⟩
  rcases outcomes with _ | ⟨o, rest⟩
  · simp
  · rcases o with msg | ⟨s, b⟩
    · simp
    · dsimp only
      split
      · split
        · rcases rest with _ | ⟨o2, rest2⟩
          · simp
          · rcases o2 with m2 | ⟨s2, b2⟩
            · simp
            · dsimp only
              split <;> simp
        · simp
      · simp

/-- Every request the send-and-retry block issues is the request built before
the retry label. -/
theorem execWithRetry_mem (c : AdminClient) (req : Request) (env : HttpEnv) :
    ∀ r ∈ (execWithRetry c req env).1, r = req := by
  unfold execWithRetry
  rcases env with ⟨outcomes, rb⟩
  rcases outcomes with _ | ⟨o, rest⟩
  · simp
  · rcases o with msg | ⟨s, b⟩
    · simp
    · dsimp only
      split
      · split
        · rcases rest with _ | ⟨o2, rest2⟩
          · simp
          · rcases o2 with m2 | ⟨s2, b2⟩
            · simp
            · dsimp only
              split <;> simp
        · simp
      · simp

/-- The decode tail leaves the request trace of the send-and-retry block
unchanged. -/
theorem finishExec_fst {α : Type} (c : AdminClient) (req : Request) (env : HttpEnv)
    (decode : Body → Except AdminClientError α) :
    (finishExec c req env decode).1 = (execWithRetry c req env).1 := by
  unfold finishExec
  rcases h : execWithRetry c req env with ⟨trace, c2, r⟩
  cases r <;> simp

/-- The decode tail leaves the final client of the send-and-retry block
unchanged. -/
theorem finishExec_client {α : Type} (c : AdminClient) (req : Request) (env : HttpEnv)
    (decode : Body → Except AdminClientError α) :
    (finishExec c req env decode).2.1 = (execWithRetry c req env).2.1 := by
  unfold finishExec
  rcases h : execWithRetry c req env with ⟨trace, c2, r⟩
  cases r <;> simp

/-- The decode tail propagates an error of the send-and-retry block
unchanged. -/
theorem finishExec_error {α : Type} (c : AdminClient) (req : Request) (env : HttpEnv)
    (decode : Body → Except AdminClientError α) (e : AdminClientError)
    (h : (execWithRetry c req env).2.2 = .error e) :
    (finishExec c req env decode).2.2 = .error e := by
  unfold finishExec
  rcases h2 : execWithRetry c req env with ⟨trace, c2, r⟩
  rw [h2] at h
  simp at h
  subst h
  simp

/-- Keeping an absolute reference path under `ResolveReference`. -/
theorem resolveRef_abs {p q : String} (h : p.data.head? = some '/') :
    resolveRef ⟨p, q⟩ = ⟨p, q⟩ := by
  unfold resolveRef
  rcases hd : p.data with _ | ⟨c, rest⟩
  · rw [hd] at h
    simp at h
  · rw [hd] at h
    simp at h
    subst h
    simp [hd]

/-- With no retry predicate configured, `retryOnError` declines, swaps
nothing, and closes nothing. -/
theorem retryOnError_none (c : AdminClient) (s : Nat) (rb : RebuildFn)
    (h : c.retryFunc = none) : retryOnError c s rb = ⟨false, c, false⟩ := by
  unfold retryOnError
  rw [h]

/-- With a predicate that does not recognize the status, `retryOnError`
declines, swaps nothing, and closes nothing. -/
theorem retryOnError_not_recognized (c : AdminClient) (s : Nat) (rb : RebuildFn) (f : RetryFunc)
    (hf : c.retryFunc = some f) (h : f s = false) :
    retryOnError c s rb = ⟨false, c, false⟩ := by
  unfold retryOnError
  rw [hf]
  simp [h]

/-- With a recognized status but a failing transport rebuild from the stored
options, `retryOnError` declines and leaves the client unchanged. -/
theorem retryOnError_rebuild_fail (c : AdminClient) (s : Nat) (rb : RebuildFn) (f : RetryFunc)
    (hf : c.retryFunc = some f) (h : f s = true) (hrb : rb c.opts = none) :
    retryOnError c s rb = ⟨false, c, false⟩ := by
  unfold retryOnError
  rw [hf]
  simp [h, hrb]

/-- With a recognized status and a successful transport rebuild from the
stored options, `retryOnError` closes the failed body, swaps the transport
in, and signals retry. -/
theorem retryOnError_recognized (c : AdminClient) (s : Nat) (rb : RebuildFn) (f : RetryFunc)
    (tr : Transport) (hf : c.retryFunc = some f) (h : f s = true) (hrb : rb c.opts = some tr) :
    retryOnError c s rb = ⟨true, { c with transport := tr }, true⟩ := by
  unfold retryOnError
  rw [hf]
  simp [h, hrb]

/-- A transport-level failure on the first send is surfaced at once, with no
second request and no client change. -/
theorem execWithRetry_transport_first (c : AdminClient) (req : Request) (msg : String)
    (rest : List HttpOutcome) (rb : RebuildFn) :
    execWithRetry c req ⟨.transportFail msg :: rest, rb⟩ =
      ([req], c, .error (.transportErr req.url msg)) := rfl

/-- A first response below 400 is a success: one request, client unchanged. -/
theorem execWithRetry_success (c : AdminClient) (req : Request) (s : Nat) (b : Body)
    (rest : List HttpOutcome) (rb : RebuildFn) (hs : s < 400) :
    execWithRetry c req ⟨.response s b :: rest, rb⟩ = ([req], c, .ok b) := by
  unfold execWithRetry
  simp [Nat.not_le.mpr hs]

/-- When `retryOnError` declines on the first failing response, that
response's decoded error is surfaced after a single request. -/
theorem execWithRetry_no_retry (c : AdminClient) (req : Request) (s : Nat) (b : Body)
    (rest : List HttpOutcome) (rb : RebuildFn)
    (hs : 400 ≤ s) (hro : (retryOnError c s rb).retry = false) :
    execWithRetry c req ⟨.response s b :: rest, rb⟩ = ([req], c, .error (readAdminError b)) := by
  unfold execWithRetry
  simp [hs, hro]

/-- When `retryOnError` signals retry, the original request is replayed once
and the decoded error of a second failing response is surfaced. -/
theorem execWithRetry_retry_second_fail (c : AdminClient) (req : Request) (s1 s2 : Nat)
    (b1 b2 : Body) (rest : List HttpOutcome) (rb : RebuildFn)
    (hs1 : 400 ≤ s1) (hs2 : 400 ≤ s2) (hro : (retryOnError c s1 rb).retry = true) :
    execWithRetry c req ⟨.response s1 b1 :: .response s2 b2 :: rest, rb⟩ =
      ([req, req], (retryOnError c s1 rb).client, .error (readAdminError b2)) := by
  unfold execWithRetry
  simp [hs1, hs2, hro]

/-- When `retryOnError` signals retry, the original request is replayed once
and a second response below 400 is a success. -/
theorem execWithRetry_retry_second_ok (c : AdminClient) (req : Request) (s1 s2 : Nat)
    (b1 b2 : Body) (rest : List HttpOutcome) (rb : RebuildFn)
    (hs1 : 400 ≤ s1) (hs2 : s2 < 400) (hro : (retryOnError c s1 rb).retry = true) :
    execWithRetry c req ⟨.response s1 b1 :: .response s2 b2 :: rest, rb⟩ =
      ([req, req], (retryOnError c s1 rb).client, .ok b2) := by
  unfold execWithRetry
  simp [hs1, Nat.not_le.mpr hs2, hro]

/-- When `retryOnError` signals retry, whatever the second outcome is, the
trace is the original request twice and the final client is the one
`retryOnError` produced. -/
theorem execWithRetry_retry_trace (c : AdminClient) (req : Request) (s1 : Nat) (b1 : Body)
    (rest : List HttpOutcome) (rb : RebuildFn)
    (hs1 : 400 ≤ s1) (hro : (retryOnError c s1 rb).retry = true) :
    (execWithRetry c req ⟨.response s1 b1 :: rest, rb⟩).1 = [req, req] ∧
    (execWithRetry c req ⟨.response s1 b1 :: rest, rb⟩).2.1 = (retryOnError c s1 rb).client := by
  unfold execWithRetry
  rcases rest with _ | ⟨o2, rest2⟩
  · simp [hs1, hro]
  · rcases o2 with m2 | ⟨s2, b2⟩
    · simp [hs1, hro]
    · by_cases h2 : 400 ≤ s2 <;> simp [hs1, hro, h2]

/-- The token a successful hex draw makes `generateAdminToken` mint. -/
def mintedToken (c : AdminClient) (urlPath : String) (jid : String) (now : Nat) : AdminToken :=
  ⟨jid, c.x5cKid, c.x5cIssuer, c.x5cSubject, urlPath, now, now + DefaultValidity, c.x5cCertStrs⟩

/-- Computation of `generateAdminToken` on a successful hex draw. -/
theorem generateAdminToken_ok (c : AdminClient) (urlPath : String)
    (hexDraw : Nat → Option String) (now : Nat) (jid : String)
    (h : hexDraw randutilHexLen = some jid) :
    generateAdminToken c urlPath hexDraw now = .ok (mintedToken c urlPath jid now) := by
  simp [generateAdminToken, h, mintedToken]

/-- Computation of `generateAdminToken` on a failed hex draw. -/
theorem generateAdminToken_fail (c : AdminClient) (urlPath : String)
    (hexDraw : Nat → Option String) (now : Nat) (h : hexDraw randutilHexLen = none) :
    generateAdminToken c urlPath hexDraw now = .error .tokenErr := by
  simp [generateAdminToken, h]

/-- The mint-and-send tail on a successful mint: the request carries the
minted token and the send-and-retry block runs. -/
theorem mintAndSend_eq {α : Type} (c : AdminClient) (method : String) (u : URL)
    (body : Option String) (env : OpEnv) (decode : Body → Except AdminClientError α)
    (jid : String) (h : env.hexDraw randutilHexLen = some jid) :
    mintAndSend c method u body env decode =
      finishExec c ⟨method, u, some (mintedToken c u.path jid env.now), body⟩ env.http decode := by
  rw [mintAndSend, generateAdminToken_ok c u.path env.hexDraw env.now jid h]

/-- The mint-and-send tail on a failed mint: no request is issued and the
token error is surfaced. -/
theorem mintAndSend_mint_fail {α : Type} (c : AdminClient) (method : String) (u : URL)
    (body : Option String) (env : OpEnv) (decode : Body → Except AdminClientError α)
    (h : env.hexDraw randutilHexLen = none) :
    mintAndSend c method u body env decode = ([], c, .error .tokenErr) := by
  rw [mintAndSend, generateAdminToken_fail c u.path env.hexDraw env.now h]

/-- The mint-and-send tail issues at most two requests. -/
theorem mintAndSend_length_le {α : Type} (c : AdminClient) (method : String) (u : URL)
    (body : Option String) (env : OpEnv) (decode : Body → Except AdminClientError α) :
    (mintAndSend c method u body env decode).1.length ≤ 2 := by
  cases h : env.hexDraw randutilHexLen with
  | none => rw [mintAndSend_mint_fail c method u body env decode h]; simp
  | some jid =>
      rw [mintAndSend_eq c method u body env decode jid h, finishExec_fst]
      exact execWithRetry_length_le _ _ _

/-- Every request the mint-and-send tail issues carries the token minted for
the target path as its `Authorization` header, and targets that URL with the
given method and body. -/
theorem mintAndSend_mem {α : Type} (c : AdminClient) (method : String) (u : URL)
    (body : Option String) (env : OpEnv) (decode : Body → Except AdminClientError α) :
    ∀ r ∈ (mintAndSend c method u body env decode).1,
      ∃ jid, env.hexDraw randutilHexLen = some jid ∧
        r = ⟨method, u, some (mintedToken c u.path jid env.now), body⟩ := by
  intro r hr
  cases h : env.hexDraw randutilHexLen with
  | none => rw [mintAndSend_mint_fail c method u body env decode h] at hr; simp at hr
  | some jid =>
      refine ⟨jid, rfl, ?_⟩
      rw [mintAndSend_eq c method u body env decode jid h, finishExec_fst] at hr
      exact execWithRetry_mem _ _ _ r hr

/-! Concrete instances used by the witnesses. -/

/-- A retry predicate recognizing exactly status 401. -/
def fEx : RetryFunc := fun s => s == 401

/-- A client configured with the 401 retry predicate. -/
def cEx : AdminClient := ⟨some fEx, 1, [7], "kid-1", "issuer-1", "subject-1", ["cert-1"]⟩

/-- A client with no retry predicate configured. -/
def cNoneEx : AdminClient := ⟨none, 1, [7], "kid-1", "issuer-1", "subject-1", ["cert-1"]⟩

/-- A rebuild environment that always produces transport 2. -/
def rbEx : RebuildFn := fun _ => some 2

/-- A rebuild environment that always fails. -/
def rbFailEx : RebuildFn := fun _ => none

/-- A concrete request. -/
def reqEx : Request := ⟨"GET", ⟨"/admin/admins", ""⟩, none, none⟩

/-- An honest model of `randutil.Hex` drawing the letter a. -/
def hexEx : Nat → Option String := fun n => some (String.mk (List.replicate n 'a'))

/-- An honest model of `randutil.Hex` drawing the letter b. -/
def hexEx2 : Nat → Option String := fun n => some (String.mk (List.replicate n 'b'))

/-- The 64-character draw of `hexEx`. -/
def jidEx : String := String.mk (List.replicate 64 'a')

/-- The 64-character draw of `hexEx2`. -/
def jidEx2 : String := String.mk (List.replicate 64 'b')

/-- The decode tail on a first transport-level failure. -/
theorem finishExec_transport_first {α : Type} (c : AdminClient) (req : Request) (msg : String)
    (rest : List HttpOutcome) (rb : RebuildFn) (decode : Body → Except AdminClientError α) :
    finishExec c req ⟨.transportFail msg :: rest, rb⟩ decode =
      ([req], c, .error (.transportErr req.url msg)) := rfl

/-- The mint-and-send tail on a first transport-level failure: one request,
client unchanged, the wrapped transport error surfaced. -/
theorem mintAndSend_transport_shape {α : Type} (c : AdminClient) (method : String) (u : URL)
    (body : Option String) (env : OpEnv) (decode : Body → Except AdminClientError α)
    (jid msg : String) (rest : List HttpOutcome) (rb : RebuildFn)
    (hj : env.hexDraw randutilHexLen = some jid)
    (ho : env.http = ⟨.transportFail msg :: rest, rb⟩) :
    (mintAndSend c method u body env decode).1.length = 1 ∧
    (mintAndSend c method u body env decode).2.1 = c ∧
    (mintAndSend c method u body env decode).2.2 = .error (.transportErr u msg) := by
  rw [mintAndSend_eq c method u body env decode jid hj, ho, finishExec_transport_first]
  exact ⟨rfl, rfl, rfl⟩

/-- C1: for every client operation and every sequence of responses, at most
one retry occurs per logical call (every operation issues at most two
requests); on the shared send-and-retry block, if the retry predicate
recognizes the first failing status (and the transport rebuild the retry
controller performs succeeds), exactly one replay is performed and a second
failing response's decoded error is surfaced as the terminal result; if the
predicate does not recognize the status, or no predicate is configured, zero
retries occur and the first failure is surfaced. -/
theorem C1_at_most_one_retry :
    (∀ (c : AdminClient) (req : Request) (env : HttpEnv),
      (execWithRetry c req env).1.length ≤ 2) ∧
    (∀ (c : AdminClient) (f : RetryFunc) (req : Request) (s1 s2 : Nat) (b1 b2 : Body)
        (rest : List HttpOutcome) (rb : RebuildFn) (tr : Transport),
      c.retryFunc = some f → 400 ≤ s1 → f s1 = true → rb c.opts = some tr → 400 ≤ s2 →
      execWithRetry c req ⟨.response s1 b1 :: .response s2 b2 :: rest, rb⟩ =
        ([req, req], { c with transport := tr }, .error (readAdminError b2))) ∧
    (∀ (c : AdminClient) (f : RetryFunc) (req : Request) (s1 : Nat) (b1 : Body)
        (rest : List HttpOutcome) (rb : RebuildFn),
      c.retryFunc = some f → 400 ≤ s1 → f s1 = false →
      execWithRetry c req ⟨.response s1 b1 :: rest, rb⟩ =
        ([req], c, .error (readAdminError b1))) ∧
    (∀ (c : AdminClient) (req : Request) (s1 : Nat) (b1 : Body)
        (rest : List HttpOutcome) (rb : RebuildFn),
      c.retryFunc = none → 400 ≤ s1 →
      execWithRetry c req ⟨.response s1 b1 :: rest, rb⟩ =
        ([req], c, .error (readAdminError b1))) ∧
    (∀ c id env, (GetAdmin c id env).1.length ≤ 2) ∧
    (∀ c opts env, (GetAdminsPaginate c opts env).1.length ≤ 2) ∧
    (∀ c rb env, (CreateAdmin c rb env).1.length ≤ 2) ∧
    (∀ c id env, (RemoveAdmin c id env).1.length ≤ 2) ∧
    (∀ c id rb env, (UpdateAdmin c id rb env).1.length ≤ 2) ∧
    (∀ c opts env, (GetProvisioner c opts env).1.length ≤ 2) ∧
    (∀ c opts env, (GetProvisionersPaginate c opts env).1.length ≤ 2) ∧
    (∀ c opts env, (RemoveProvisioner c opts env).1.length ≤ 2) ∧
    (∀ c p env, (CreateProvisioner c p env).1.length ≤ 2) ∧
    (∀ c n p env, (UpdateProvisioner c n p env).1.length ≤ 2) := by
  refine ⟨execWithRetry_length_le, ?_, ?_, ?_, ?_, ?_, ?_, ?_, ?_, ?_, ?_, ?_, ?_, ?_⟩
  · intro c f req s1 s2 b1 b2 rest rb tr hf hs1 hfs hrb hs2
    rw [execWithRetry_retry_second_fail c req s1 s2 b1 b2 rest rb hs1 hs2
      (by rw [retryOnError_recognized c s1 rb f tr hf hfs hrb]),
      retryOnError_recognized c s1 rb f tr hf hfs hrb]
  · intro c f req s1 b1 rest rb hf hs1 hfs
    exact execWithRetry_no_retry c req s1 b1 rest rb hs1
      (by rw [retryOnError_not_recognized c s1 rb f hf hfs])
  · intro c req s1 b1 rest rb hf hs1
    exact execWithRetry_no_retry c req s1 b1 rest rb hs1
      (by rw [retryOnError_none c s1 rb hf])
  · intro c id env
    rw [show GetAdmin c id env =
      finishExec c ⟨"GET", resolveRef ⟨pathJoin ["admin", "admins", id], ""⟩, none, none⟩
        env.http (readProtoJSONAdmin (resolveRef ⟨pathJoin ["admin", "admins", id], ""⟩))
      from rfl, finishExec_fst]
    exact execWithRetry_length_le _ _ _
  · intro c opts env
    rcases h : adminOptions.applyAll {} opts with e | o
    · simp [GetAdminsPaginate, h]
    · simp only [GetAdminsPaginate, h]
      exact mintAndSend_length_le _ _ _ _ _ _
  · intro c rb env
    exact mintAndSend_length_le _ _ _ _ _ _
  · intro c id env
    exact mintAndSend_length_le _ _ _ _ _ _
  · intro c id rb env
    exact mintAndSend_length_le _ _ _ _ _ _
  · intro c opts env
    rcases h : provisionerOptions.applyAll {} opts with e | o
    · simp [GetProvisioner, h]
    · simp only [GetProvisioner, h]
      split
      · simp
      · exact mintAndSend_length_le _ _ _ _ _ _
  · intro c opts env
    rcases h : provisionerOptions.applyAll {} opts with e | o
    · simp [GetProvisionersPaginate, h]
    · simp only [GetProvisionersPaginate, h]
      exact mintAndSend_length_le _ _ _ _ _ _
  · intro c opts env
    rcases h : provisionerOptions.applyAll {} opts with e | o
    · simp [RemoveProvisioner, h]
    · simp only [RemoveProvisioner, h]
      split
      · simp
      · exact mintAndSend_length_le _ _ _ _ _ _
  · intro c p env
    exact mintAndSend_length_le _ _ _ _ _ _
  · intro c n p env
    exact mintAndSend_length_le _ _ _ _ _ _

/-- Witness for C1: a 401 first response recognized by the predicate is
replayed exactly once with transport 2 swapped in, and the second failure
(403) is surfaced as the terminal error. -/
theorem C1_at_most_one_retry_witness :
    execWithRetry cEx reqEx
        ⟨[.response 401 (.adminErrBody "first"), .response 403 (.adminErrBody "second")], rbEx⟩ =
      ([reqEx, reqEx], { cEx with transport := 2 }, .error (.serverErr "second")) :=
  C1_at_most_one_retry.2.1 cEx fEx reqEx 401 403 (.adminErrBody "first") (.adminErrBody "second")
    [] rbEx 2 rfl (by decide) (by decide) rfl (by decide)

/-- C3: a minted token's audience is exactly the target path, its validity
window is the interval from now to now plus the default validity (positive
length), its key id, issuer, subject, and certificate chain come from the
client's credential material, its JWT id is the fresh 64-hex-character
(256-bit) draw, and two tokens minted from distinct draws for the same path
are never identical. -/
theorem C3_minted_token_shape
    (c : AdminClient) (p : String) (hex hex2 : Nat → Option String) (now now2 : Nat)
    (jid jid2 : String)
    (hdraw : hex randutilHexLen = some jid) (hdraw2 : hex2 randutilHexLen = some jid2)
    (hlen : ∀ n s, hex n = some s → s.length = n) :
    ∃ t t2, generateAdminToken c p hex now = .ok t ∧
      generateAdminToken c p hex2 now2 = .ok t2 ∧
      t.audience = p ∧ t.notBefore = now ∧ t.notAfter = now + DefaultValidity ∧
      t.notBefore < t.notAfter ∧
      t.kid = c.x5cKid ∧ t.issuer = c.x5cIssuer ∧ t.subject = c.x5cSubject ∧
      t.x5cCerts = c.x5cCertStrs ∧
      t.jwtID = jid ∧ t.jwtID.length * 4 = 256 ∧
      (jid ≠ jid2 → t ≠ t2) := by
  refine ⟨mintedToken c p jid now, mintedToken c p jid2 now2,
    generateAdminToken_ok c p hex now jid hdraw,
    generateAdminToken_ok c p hex2 now2 jid2 hdraw2,
    rfl, rfl, rfl, ?_, rfl, rfl, rfl, rfl, rfl, ?_, ?_⟩
  · show now < now + DefaultValidity
    simp [DefaultValidity]
  · show jid.length * 4 = 256
    simp [hlen randutilHexLen jid hdraw, randutilHexLen]
  · intro hne hEq
    exact hne (congrArg AdminToken.jwtID hEq)

/-- Witness for C3 at two concrete honest hex draws. -/
theorem C3_minted_token_shape_witness :
    ∃ t t2, generateAdminToken cEx "/admin/admins" hexEx 10 = .ok t ∧
      generateAdminToken cEx "/admin/admins" hexEx2 20 = .ok t2 ∧
      t.audience = "/admin/admins" ∧ t.notBefore = 10 ∧ t.notAfter = 10 + DefaultValidity ∧
      t.notBefore < t.notAfter ∧
      t.kid = cEx.x5cKid ∧ t.issuer = cEx.x5cIssuer ∧ t.subject = cEx.x5cSubject ∧
      t.x5cCerts = cEx.x5cCertStrs ∧
      t.jwtID = jidEx ∧ t.jwtID.length * 4 = 256 ∧
      (jidEx ≠ jidEx2 → t ≠ t2) :=
  C3_minted_token_shape cEx "/admin/admins" hexEx hexEx2 10 20 jidEx jidEx2 rfl rfl
    (by intro n s h
        simp only [hexEx, Option.some.injEq] at h
        subst h
        simp [String.length])

/-- C7: on a recognized failing status the retry controller rebuilds the
transport from the stored original options, closes the failed body, swaps
the transport, and signals retry; if the rebuild fails, or the predicate
does not recognize the status, or no predicate is configured, it signals no
retry and leaves the client untouched, and the failed response's decoded
error is surfaced by the send block. -/
theorem C7_retry_controller (c : AdminClient) (status : Nat) (rebuild : RebuildFn) :
    (∀ f tr, c.retryFunc = some f → f status = true → rebuild c.opts = some tr →
      retryOnError c status rebuild = ⟨true, { c with transport := tr }, true⟩) ∧
    (∀ f, c.retryFunc = some f → f status = true → rebuild c.opts = none →
      retryOnError c status rebuild = ⟨false, c, false⟩) ∧
    (∀ f, c.retryFunc = some f → f status = false →
      retryOnError c status rebuild = ⟨false, c, false⟩) ∧
    (c.retryFunc = none → retryOnError c status rebuild = ⟨false, c, false⟩) ∧
    (∀ req b rest, 400 ≤ status → (retryOnError c status rebuild).retry = false →
      execWithRetry c req ⟨.response status b :: rest, rebuild⟩ =
        ([req], c, .error (readAdminError b))) := by
  refine ⟨?_, ?_, ?_, ?_, ?_⟩
  · intro f tr hf hfs hrb
    exact retryOnError_recognized c status rebuild f tr hf hfs hrb
  · intro f hf hfs hrb
    exact retryOnError_rebuild_fail c status rebuild f hf hfs hrb
  · intro f hf hfs
    exact retryOnError_not_recognized c status rebuild f hf hfs
  · intro hf
    exact retryOnError_none c status rebuild hf
  · intro req b rest hs hro
    exact execWithRetry_no_retry c req status b rest rebuild hs hro

/-- Witness for C7: a recognized 401 with a failing rebuild declines to
retry and surfaces the first failure. -/
theorem C7_retry_controller_witness :
    retryOnError cEx 401 rbFailEx = ⟨false, cEx, false⟩ ∧
    execWithRetry cEx reqEx ⟨[.response 401 (.adminErrBody "boom")], rbFailEx⟩ =
      ([reqEx], cEx, .error (.serverErr "boom")) :=
  ⟨(C7_retry_controller cEx 401 rbFailEx).2.1 fEx rfl (by decide) rfl,
    (C7_retry_controller cEx 401 rbFailEx).2.2.2.2 reqEx (.adminErrBody "boom") [] (by decide)
      (by rw [(C7_retry_controller cEx 401 rbFailEx).2.1 fEx rfl (by decide) rfl])⟩

/-- Resolving a reference never changes its raw query. -/
theorem resolveRef_rawQuery (u : URL) : (resolveRef u).rawQuery = u.rawQuery := by
  unfold resolveRef
  split <;> rfl

/-- The decode tail on a first response below 400: one request, client
unchanged, the decoded body returned. -/
theorem finishExec_success {α : Type} (c : AdminClient) (req : Request) (s : Nat) (b : Body)
    (rest : List HttpOutcome) (rb : RebuildFn) (decode : Body → Except AdminClientError α)
    (hs : s < 400) :
    finishExec c req ⟨.response s b :: rest, rb⟩ decode = ([req], c, decode b) := by
  unfold finishExec
  rw [execWithRetry_success c req s b rest rb hs]

/-- One page fetch of the admins aggregation loop, on an environment that
answers it with a single 200 page: the single request carries the relayed
cursor and limit 100 in its query and the token minted for
`/admin/admins`. -/
theorem GetAdminsPaginate_page (c : AdminClient) (cur jid : String) (now : Nat)
    (items : List Admin) (next : String) (rb : RebuildFn) (hex : Nat → Option String)
    (hj : hex randutilHexLen = some jid) :
    GetAdminsPaginate c [WithAdminCursor cur, WithAdminLimit 100]
        ⟨hex, now, ⟨[.response 200 (.adminsPageBody items next)], rb⟩⟩ =
      ([⟨"GET", ⟨"/admin/admins", adminOptions.rawQuery ⟨cur, 100⟩⟩,
          some (mintedToken c "/admin/admins" jid now), none⟩], c, .ok ⟨items, next⟩) := by
  have happly : adminOptions.applyAll {} [WithAdminCursor cur, WithAdminLimit 100] =
      .ok ⟨cur, 100⟩ := rfl
  simp only [GetAdminsPaginate, happly]
  rw [resolveRef_abs (by decide),
    mintAndSend_eq c "GET" ⟨"/admin/admins", adminOptions.rawQuery ⟨cur, 100⟩⟩ none
      ⟨hex, now, ⟨[.response 200 (.adminsPageBody items next)], rb⟩⟩
      (readJSONAdminsPage ⟨"/admin/admins", adminOptions.rawQuery ⟨cur, 100⟩⟩) jid hj,
    finishExec_success _ _ _ _ _ _ _ (by decide)]
  rfl

/-- One page fetch of the provisioners aggregation loop, on an environment
that answers it with a single 200 page. -/
theorem GetProvisionersPaginate_page (c : AdminClient) (cur jid : String) (now : Nat)
    (items : List Provisioner) (next : String) (rb : RebuildFn) (hex : Nat → Option String)
    (hj : hex randutilHexLen = some jid) :
    GetProvisionersPaginate c [WithProvisionerCursor cur, WithProvisionerLimit 100]
        ⟨hex, now, ⟨[.response 200 (.provsPageBody items next)], rb⟩⟩ =
      ([⟨"GET", ⟨"/admin/provisioners", provisionerOptions.rawQuery ⟨cur, 100, "", ""⟩⟩,
          some (mintedToken c "/admin/provisioners" jid now), none⟩], c, .ok ⟨items, next⟩) := by
  have happly : provisionerOptions.applyAll {}
      [WithProvisionerCursor cur, WithProvisionerLimit 100] = .ok ⟨cur, 100, "", ""⟩ := rfl
  simp only [GetProvisionersPaginate, happly]
  rw [resolveRef_abs (by decide),
    mintAndSend_eq c "GET"
      ⟨"/admin/provisioners", provisionerOptions.rawQuery ⟨cur, 100, "", ""⟩⟩ none
      ⟨hex, now, ⟨[.response 200 (.provsPageBody items next)], rb⟩⟩
      (readJSONProvsPage ⟨"/admin/provisioners", provisionerOptions.rawQuery ⟨cur, 100, "", ""⟩⟩)
      jid hj,
    finishExec_success _ _ _ _ _ _ _ (by decide)]
  rfl

/-- C9: for every client operation, a transport-level failure during send
(an HTTP call error with no response) is surfaced immediately as a wrapped
error: one single request is issued, no transport rotation happens (the
client is unchanged, whatever retry predicate is configured), and no replay
is attempted. -/
theorem C9_transport_failure_immediate :
    (∀ (c : AdminClient) (req : Request) (msg : String) (rest : List HttpOutcome)
        (rb : RebuildFn),
      execWithRetry c req ⟨.transportFail msg :: rest, rb⟩ =
        ([req], c, .error (.transportErr req.url msg))) ∧
    (∀ c id env msg rest rb, env.http = HttpEnv.mk (.transportFail msg :: rest) rb →
      (GetAdmin c id env).1.length = 1 ∧ (GetAdmin c id env).2.1 = c ∧
      ∃ u, (GetAdmin c id env).2.2 = .error (.transportErr u msg)) ∧
    (∀ c opts env o jid msg rest rb, adminOptions.applyAll {} opts = .ok o →
      env.hexDraw randutilHexLen = some jid →
      env.http = HttpEnv.mk (.transportFail msg :: rest) rb →
      (GetAdminsPaginate c opts env).1.length = 1 ∧ (GetAdminsPaginate c opts env).2.1 = c ∧
      ∃ u, (GetAdminsPaginate c opts env).2.2 = .error (.transportErr u msg)) ∧
    (∀ c rb2 env jid msg rest rb, env.hexDraw randutilHexLen = some jid →
      env.http = HttpEnv.mk (.transportFail msg :: rest) rb →
      (CreateAdmin c rb2 env).1.length = 1 ∧ (CreateAdmin c rb2 env).2.1 = c ∧
      ∃ u, (CreateAdmin c rb2 env).2.2 = .error (.transportErr u msg)) ∧
    (∀ c id env jid msg rest rb, env.hexDraw randutilHexLen = some jid →
      env.http = HttpEnv.mk (.transportFail msg :: rest) rb →
      (RemoveAdmin c id env).1.length = 1 ∧ (RemoveAdmin c id env).2.1 = c ∧
      ∃ u, (RemoveAdmin c id env).2.2 = .error (.transportErr u msg)) ∧
    (∀ c id rb2 env jid msg rest rb, env.hexDraw randutilHexLen = some jid →
      env.http = HttpEnv.mk (.transportFail msg :: rest) rb →
      (UpdateAdmin c id rb2 env).1.length = 1 ∧ (UpdateAdmin c id rb2 env).2.1 = c ∧
      ∃ u, (UpdateAdmin c id rb2 env).2.2 = .error (.transportErr u msg)) ∧
    (∀ c opts env o jid msg rest rb, provisionerOptions.applyAll {} opts = .ok o →
      0 < o.id.length →
      env.hexDraw randutilHexLen = some jid →
      env.http = HttpEnv.mk (.transportFail msg :: rest) rb →
      (GetProvisioner c opts env).1.length = 1 ∧ (GetProvisioner c opts env).2.1 = c ∧
      ∃ u, (GetProvisioner c opts env).2.2 = .error (.transportErr u msg)) ∧
    (∀ c opts env o jid msg rest rb, provisionerOptions.applyAll {} opts = .ok o →
      env.hexDraw randutilHexLen = some jid →
      env.http = HttpEnv.mk (.transportFail msg :: rest) rb →
      (GetProvisionersPaginate c opts env).1.length = 1 ∧
      (GetProvisionersPaginate c opts env).2.1 = c ∧
      ∃ u, (GetProvisionersPaginate c opts env).2.2 = .error (.transportErr u msg)) ∧
    (∀ c opts env o jid msg rest rb, provisionerOptions.applyAll {} opts = .ok o →
      0 < o.id.length →
      env.hexDraw randutilHexLen = some jid →
      env.http = HttpEnv.mk (.transportFail msg :: rest) rb →
      (RemoveProvisioner c opts env).1.length = 1 ∧ (RemoveProvisioner c opts env).2.1 = c ∧
      ∃ u, (RemoveProvisioner c opts env).2.2 = .error (.transportErr u msg)) ∧
    (∀ c p env jid msg rest rb, env.hexDraw randutilHexLen = some jid →
      env.http = HttpEnv.mk (.transportFail msg :: rest) rb →
      (CreateProvisioner c p env).1.length = 1 ∧ (CreateProvisioner c p env).2.1 = c ∧
      ∃ u, (CreateProvisioner c p env).2.2 = .error (.transportErr u msg)) ∧
    (∀ c n p env jid msg rest rb, env.hexDraw randutilHexLen = some jid →
      env.http = HttpEnv.mk (.transportFail msg :: rest) rb →
      (UpdateProvisioner c n p env).1.length = 1 ∧ (UpdateProvisioner c n p env).2.1 = c ∧
      ∃ u, (UpdateProvisioner c n p env).2.2 = .error (.transportErr u msg)) := by
  refine ⟨execWithRetry_transport_first, ?_, ?_, ?_, ?_, ?_, ?_, ?_, ?_, ?_, ?_⟩
  · intro c id env msg rest rb ho
    rw [show GetAdmin c id env =
      finishExec c ⟨"GET", resolveRef ⟨pathJoin ["admin", "admins", id], ""⟩, none, none⟩
        env.http (readProtoJSONAdmin (resolveRef ⟨pathJoin ["admin", "admins", id], ""⟩))
      from rfl, ho, finishExec_transport_first]
    exact ⟨rfl, rfl, resolveRef ⟨pathJoin ["admin", "admins", id], ""⟩, rfl⟩
  · intro c opts env o jid msg rest rb happly hj ho
    simp only [GetAdminsPaginate, happly]
    have h := mintAndSend_transport_shape c "GET"
      (resolveRef ⟨"/admin/admins", adminOptions.rawQuery o⟩) none env
      (readJSONAdminsPage (resolveRef ⟨"/admin/admins", adminOptions.rawQuery o⟩))
      jid msg rest rb hj ho
    exact ⟨h.1, h.2.1, _, h.2.2⟩
  · intro c rb2 env jid msg rest rb hj ho
    have h := mintAndSend_transport_shape c "POST" (resolveRef ⟨"/admin/admins", ""⟩)
      (some rb2) env (readProtoJSONAdmin (resolveRef ⟨"/admin/admins", ""⟩))
      jid msg rest rb hj ho
    exact ⟨h.1, h.2.1, _, h.2.2⟩
  · intro c id env jid msg rest rb hj ho
    have h := mintAndSend_transport_shape c "DELETE"
      (resolveRef ⟨pathJoin ["admin", "admins", id], ""⟩) none env (fun _ => .ok ())
      jid msg rest rb hj ho
    exact ⟨h.1, h.2.1, _, h.2.2⟩
  · intro c id rb2 env jid msg rest rb hj ho
    have h := mintAndSend_transport_shape c "PATCH"
      (resolveRef ⟨pathJoin ["admin", "admins", id], ""⟩) (some rb2) env
      (readProtoJSONAdmin (resolveRef ⟨pathJoin ["admin", "admins", id], ""⟩))
      jid msg rest rb hj ho
    exact ⟨h.1, h.2.1, _, h.2.2⟩
  · intro c opts env o jid msg rest rb happly hid hj ho
    simp only [GetProvisioner, happly, hid, if_true]
    have h := mintAndSend_transport_shape c "GET"
      (resolveRef ⟨"/admin/provisioners/id", provisionerOptions.rawQuery o⟩) none env
      (readProtoJSONProv (resolveRef ⟨"/admin/provisioners/id", provisionerOptions.rawQuery o⟩))
      jid msg rest rb hj ho
    exact ⟨h.1, h.2.1, _, h.2.2⟩
  · intro c opts env o jid msg rest rb happly hj ho
    simp only [GetProvisionersPaginate, happly]
    have h := mintAndSend_transport_shape c "GET"
      (resolveRef ⟨"/admin/provisioners", provisionerOptions.rawQuery o⟩) none env
      (readJSONProvsPage (resolveRef ⟨"/admin/provisioners", provisionerOptions.rawQuery o⟩))
      jid msg rest rb hj ho
    exact ⟨h.1, h.2.1, _, h.2.2⟩
  · intro c opts env o jid msg rest rb happly hid hj ho
    simp only [RemoveProvisioner, happly, hid, if_true]
    have h := mintAndSend_transport_shape c "DELETE"
      (resolveRef ⟨pathJoin ["admin", "provisioners/id"], provisionerOptions.rawQuery o⟩)
      none env (fun _ => .ok ()) jid msg rest rb hj ho
    exact ⟨h.1, h.2.1, _, h.2.2⟩
  · intro c p env jid msg rest rb hj ho
    have h := mintAndSend_transport_shape c "POST"
      (resolveRef ⟨pathJoin ["admin", "provisioners"], ""⟩) (some (protojsonMarshal p)) env
      (readProtoJSONProv (resolveRef ⟨pathJoin ["admin", "provisioners"], ""⟩))
      jid msg rest rb hj ho
    exact ⟨h.1, h.2.1, _, h.2.2⟩
  · intro c n p env jid msg rest rb hj ho
    have h := mintAndSend_transport_shape c "PUT"
      (resolveRef ⟨pathJoin ["admin", "provisioners", n], ""⟩) (some (protojsonMarshal p)) env
      (fun _ => .ok ()) jid msg rest rb hj ho
    exact ⟨h.1, h.2.1, _, h.2.2⟩

/-- Witness for C9: a connection-refused failure on CreateAdmin's send is
surfaced at once with a single issued request and an unchanged client, even
though a retry predicate is configured. -/
theorem C9_transport_failure_immediate_witness :
    (CreateAdmin cEx "body" ⟨hexEx, 5, ⟨[.transportFail "refused"], rbEx⟩⟩).1.length = 1 ∧
    (CreateAdmin cEx "body" ⟨hexEx, 5, ⟨[.transportFail "refused"], rbEx⟩⟩).2.1 = cEx ∧
    ∃ u, (CreateAdmin cEx "body" ⟨hexEx, 5, ⟨[.transportFail "refused"], rbEx⟩⟩).2.2 =
      .error (.transportErr u "refused") :=
  C9_transport_failure_immediate.2.2.2.1 cEx "body" ⟨hexEx, 5, ⟨[.transportFail "refused"], rbEx⟩⟩
    jidEx "refused" [] rbEx rfl rfl

/-- The raw query of an admins page fetch with a non-empty cursor and limit
100: the cursor value is relayed verbatim. -/
theorem adminOptions_rawQuery_cursor100 (cur : String) (h : 0 < cur.length) :
    adminOptions.rawQuery ⟨cur, 100⟩ = "cursor=" ++ cur ++ "&limit=100" := by
  have hts : toString (100 : Int) = "100" := by decide
  have h1 : adminOptions.rawQuery ⟨cur, 100⟩ =
      queryEncode [("cursor", cur), ("limit", "100")] := by
    simp [adminOptions.rawQuery, h, hts]
  rw [h1]
  show ("cursor" ++ "=" ++ cur) ++ "&" ++ ("limit" ++ "=" ++ "100") = _
  rw [show ("cursor" ++ "=" : String) = "cursor=" from rfl,
    show ("limit" ++ "=" ++ "100" : String) = "limit=100" from rfl,
    String.append_assoc ("cursor=" ++ cur) "&" "limit=100",
    show ("&" ++ "limit=100" : String) = "&limit=100" from rfl]

/-- The raw query of a provisioners page fetch with a non-empty cursor and
limit 100: the cursor value is relayed verbatim. -/
theorem provisionerOptions_rawQuery_cursor100 (cur : String) (h : 0 < cur.length) :
    provisionerOptions.rawQuery ⟨cur, 100, "", ""⟩ = "cursor=" ++ cur ++ "&limit=100" := by
  have hts : toString (100 : Int) = "100" := by decide
  have h1 : provisionerOptions.rawQuery ⟨cur, 100, "", ""⟩ =
      queryEncode [("cursor", cur), ("limit", "100")] := by
    simp [provisionerOptions.rawQuery, h, hts]
  rw [h1]
  show ("cursor" ++ "=" ++ cur) ++ "&" ++ ("limit" ++ "=" ++ "100") = _
  rw [show ("cursor" ++ "=" : String) = "cursor=" from rfl,
    show ("limit" ++ "=" ++ "100" : String) = "limit=100" from rfl,
    String.append_assoc ("cursor=" ++ cur) "&" "limit=100",
    show ("&" ++ "limit=100" : String) = "&limit=100" from rfl]

/-- C4: the admins and provisioners aggregations start with the empty
cursor, relay each page's next cursor verbatim into the next fetch with a
fixed limit of 100, concatenate the pages' items in server order, and stop
exactly when the next cursor is empty: over pages P1 (cursor c1), P2
(cursor c2), P3 (cursor empty) they perform exactly 3 fetches and return
P1 ++ P2 ++ P3. -/
theorem C4_pagination_aggregation
    (c : AdminClient) (opts popts : List AdminOption)
    (l1 l2 l3 : List Admin) (q1 q2 q3 : List Provisioner) (c1 c2 : String)
    (j1 j2 j3 : String) (n1 n2 n3 : Nat) (rb1 rb2 rb3 : RebuildFn)
    (hx1 hx2 hx3 : Nat → Option String)
    (h1 : hx1 randutilHexLen = some j1) (h2 : hx2 randutilHexLen = some j2)
    (h3 : hx3 randutilHexLen = some j3) (hc1 : c1 ≠ "") (hc2 : c2 ≠ "") :
    GetAdmins c opts
        [⟨hx1, n1, ⟨[.response 200 (.adminsPageBody l1 c1)], rb1⟩⟩,
         ⟨hx2, n2, ⟨[.response 200 (.adminsPageBody l2 c2)], rb2⟩⟩,
         ⟨hx3, n3, ⟨[.response 200 (.adminsPageBody l3 "")], rb3⟩⟩] =
      ([[⟨"GET", ⟨"/admin/admins", adminOptions.rawQuery ⟨"", 100⟩⟩,
           some (mintedToken c "/admin/admins" j1 n1), none⟩],
        [⟨"GET", ⟨"/admin/admins", adminOptions.rawQuery ⟨c1, 100⟩⟩,
           some (mintedToken c "/admin/admins" j2 n2), none⟩],
        [⟨"GET", ⟨"/admin/admins", adminOptions.rawQuery ⟨c2, 100⟩⟩,
           some (mintedToken c "/admin/admins" j3 n3), none⟩]],
       c, .ok (l1 ++ l2 ++ l3)) ∧
    GetProvisioners c popts
        [⟨hx1, n1, ⟨[.response 200 (.provsPageBody q1 c1)], rb1⟩⟩,
         ⟨hx2, n2, ⟨[.response 200 (.provsPageBody q2 c2)], rb2⟩⟩,
         ⟨hx3, n3, ⟨[.response 200 (.provsPageBody q3 "")], rb3⟩⟩] =
      ([[⟨"GET", ⟨"/admin/provisioners", provisionerOptions.rawQuery ⟨"", 100, "", ""⟩⟩,
           some (mintedToken c "/admin/provisioners" j1 n1), none⟩],
        [⟨"GET", ⟨"/admin/provisioners", provisionerOptions.rawQuery ⟨c1, 100, "", ""⟩⟩,
           some (mintedToken c "/admin/provisioners" j2 n2), none⟩],
        [⟨"GET", ⟨"/admin/provisioners", provisionerOptions.rawQuery ⟨c2, 100, "", ""⟩⟩,
           some (mintedToken c "/admin/provisioners" j3 n3), none⟩]],
       c, .ok (q1 ++ q2 ++ q3)) ∧
    adminOptions.rawQuery ⟨"", 100⟩ = "limit=100" ∧
    adminOptions.rawQuery ⟨c1, 100⟩ = "cursor=" ++ c1 ++ "&limit=100" ∧
    adminOptions.rawQuery ⟨c2, 100⟩ = "cursor=" ++ c2 ++ "&limit=100" ∧
    provisionerOptions.rawQuery ⟨c1, 100, "", ""⟩ = "cursor=" ++ c1 ++ "&limit=100" := by
  have hp1 : 0 < c1.length := String.length_pos_of_ne_empty hc1
  have hp2 : 0 < c2.length := String.length_pos_of_ne_empty hc2
  have ht : toString (100 : Int) = "100" := by decide
  have pg1 := GetAdminsPaginate_page c "" j1 n1 l1 c1 rb1 hx1 h1
  have pg2 := GetAdminsPaginate_page c c1 j2 n2 l2 c2 rb2 hx2 h2
  have pg3 := GetAdminsPaginate_page c c2 j3 n3 l3 "" rb3 hx3 h3
  have pp1 := GetProvisionersPaginate_page c "" j1 n1 q1 c1 rb1 hx1 h1
  have pp2 := GetProvisionersPaginate_page c c1 j2 n2 q2 c2 rb2 hx2 h2
  have pp3 := GetProvisionersPaginate_page c c2 j3 n3 q3 "" rb3 hx3 h3
  refine ⟨?_, ?_, by decide, ?_, ?_, ?_⟩
  · simp only [GetAdmins, GetAdminsAux, pg1, pg2, pg3, List.nil_append]
    simp [hc1, hc2]
  · simp only [GetProvisioners, GetProvisionersAux, pp1, pp2, pp3, List.nil_append]
    simp [hc1, hc2]
  · exact adminOptions_rawQuery_cursor100 c1 hp1
  · exact adminOptions_rawQuery_cursor100 c2 hp2
  · exact provisionerOptions_rawQuery_cursor100 c1 hp1

/-- Witness for C4 on three concrete pages. -/
theorem C4_pagination_aggregation_witness :
    GetAdmins cEx []
        [⟨hexEx, 1, ⟨[.response 200 (.adminsPageBody [⟨"a1"⟩] "cur1")], rbEx⟩⟩,
         ⟨hexEx, 2, ⟨[.response 200 (.adminsPageBody [⟨"a2"⟩] "cur2")], rbEx⟩⟩,
         ⟨hexEx, 3, ⟨[.response 200 (.adminsPageBody [⟨"a3"⟩] "")], rbEx⟩⟩] =
      ([[⟨"GET", ⟨"/admin/admins", adminOptions.rawQuery ⟨"", 100⟩⟩,
           some (mintedToken cEx "/admin/admins" jidEx 1), none⟩],
        [⟨"GET", ⟨"/admin/admins", adminOptions.rawQuery ⟨"cur1", 100⟩⟩,
           some (mintedToken cEx "/admin/admins" jidEx 2), none⟩],
        [⟨"GET", ⟨"/admin/admins", adminOptions.rawQuery ⟨"cur2", 100⟩⟩,
           some (mintedToken cEx "/admin/admins" jidEx 3), none⟩]],
       cEx, .ok [⟨"a1"⟩, ⟨"a2"⟩, ⟨"a3"⟩]) ∧
    adminOptions.rawQuery ⟨"cur1", 100⟩ = "cursor=cur1&limit=100" := by
  have h := C4_pagination_aggregation cEx [] [] [⟨"a1"⟩] [⟨"a2"⟩] [⟨"a3"⟩] [] [] []
    "cur1" "cur2" jidEx jidEx jidEx 1 2 3 rbEx rbEx rbEx hexEx hexEx hexEx
    rfl rfl rfl (by decide) (by decide)
  refine ⟨h.1, ?_⟩
  rw [h.2.2.2.1]
  decide

/-- States of the admins aggregation loop: from the first state the loop
reaches the second after consuming zero or more pages that each succeeded
(with whatever trace, retries included) and returned a non-empty next
cursor, which is relayed and the page's admins appended, exactly as the
loop body does. -/
inductive AdminsLoopReaches :
    AdminClient → String → List Admin → List OpEnv →
    AdminClient → String → List Admin → List OpEnv → Prop
  | refl (c : AdminClient) (cursor : String) (acc : List Admin) (envs : List OpEnv) :
      AdminsLoopReaches c cursor acc envs c cursor acc envs
  | step (c : AdminClient) (cursor : String) (acc : List Admin) (env : OpEnv)
      (envs : List OpEnv) (trace : List Request) (c2 : AdminClient)
      (resp : GetAdminsResponse) (c3 : AdminClient) (cursor3 : String)
      (acc3 : List Admin) (envs3 : List OpEnv) :
      GetAdminsPaginate c [WithAdminCursor cursor, WithAdminLimit 100] env =
        (trace, c2, .ok resp) →
      resp.nextCursor ≠ "" →
      AdminsLoopReaches c2 resp.nextCursor (acc ++ resp.admins) envs c3 cursor3 acc3 envs3 →
      AdminsLoopReaches c cursor acc (env :: envs) c3 cursor3 acc3 envs3

/-- States of the provisioners aggregation loop, as for the admins loop. -/
inductive ProvsLoopReaches :
    AdminClient → String → List Provisioner → List OpEnv →
    AdminClient → String → List Provisioner → List OpEnv → Prop
  | refl (c : AdminClient) (cursor : String) (acc : List Provisioner) (envs : List OpEnv) :
      ProvsLoopReaches c cursor acc envs c cursor acc envs
  | step (c : AdminClient) (cursor : String) (acc : List Provisioner) (env : OpEnv)
      (envs : List OpEnv) (trace : List Request) (c2 : AdminClient)
      (resp : GetProvisionersResponse) (c3 : AdminClient) (cursor3 : String)
      (acc3 : List Provisioner) (envs3 : List OpEnv) :
      GetProvisionersPaginate c [WithProvisionerCursor cursor, WithProvisionerLimit 100]
        env = (trace, c2, .ok resp) →
      resp.nextCursor ≠ "" →
      ProvsLoopReaches c2 resp.nextCursor (acc ++ resp.provisioners) envs c3 cursor3 acc3 envs3 →
      ProvsLoopReaches c cursor acc (env :: envs) c3 cursor3 acc3 envs3

/-- A successful page with a non-empty next cursor makes the admins
aggregation's result that of the continuation. -/
theorem GetAdminsAux_step (c : AdminClient) (cursor : String) (acc : List Admin)
    (env : OpEnv) (envs : List OpEnv) (trace : List Request) (c2 : AdminClient)
    (resp : GetAdminsResponse)
    (hp : GetAdminsPaginate c [WithAdminCursor cursor, WithAdminLimit 100] env =
      (trace, c2, .ok resp))
    (hnc : resp.nextCursor ≠ "") :
    (GetAdminsAux c cursor acc (env :: envs)).2.2 =
      (GetAdminsAux c2 resp.nextCursor (acc ++ resp.admins) envs).2.2 := by
  rcases hAux : GetAdminsAux c2 resp.nextCursor (acc ++ resp.admins) envs with ⟨traces, c3, res⟩
  simp only [GetAdminsAux, hp]
  simp [hnc, hAux]

/-- A successful page with a non-empty next cursor makes the provisioners
aggregation's result that of the continuation. -/
theorem GetProvisionersAux_step (c : AdminClient) (cursor : String)
    (acc : List Provisioner) (env : OpEnv) (envs : List OpEnv) (trace : List Request)
    (c2 : AdminClient) (resp : GetProvisionersResponse)
    (hp : GetProvisionersPaginate c [WithProvisionerCursor cursor, WithProvisionerLimit 100]
      env = (trace, c2, .ok resp))
    (hnc : resp.nextCursor ≠ "") :
    (GetProvisionersAux c cursor acc (env :: envs)).2.2 =
      (GetProvisionersAux c2 resp.nextCursor (acc ++ resp.provisioners) envs).2.2 := by
  rcases hAux : GetProvisionersAux c2 resp.nextCursor (acc ++ resp.provisioners) envs
    with ⟨traces, c3, res⟩
  simp only [GetProvisionersAux, hp]
  simp [hnc, hAux]

/-- A failing fetch at the head of the remaining pages aborts the admins
aggregation with exactly that error, discarding the accumulator. -/
theorem GetAdminsAux_head_fail (c : AdminClient) (cursor : String) (acc : List Admin)
    (env : OpEnv) (envs : List OpEnv) (err : AdminClientError)
    (hp : (GetAdminsPaginate c [WithAdminCursor cursor, WithAdminLimit 100] env).2.2 =
      .error err) :
    (GetAdminsAux c cursor acc (env :: envs)).2.2 = .error err := by
  rcases hx : GetAdminsPaginate c [WithAdminCursor cursor, WithAdminLimit 100] env
    with ⟨trace, c2, res⟩
  rw [hx] at hp
  simp only at hp
  subst hp
  simp [GetAdminsAux, hx]

/-- A failing fetch at the head of the remaining pages aborts the
provisioners aggregation with exactly that error. -/
theorem GetProvisionersAux_head_fail (c : AdminClient) (cursor : String)
    (acc : List Provisioner) (env : OpEnv) (envs : List OpEnv) (err : AdminClientError)
    (hp : (GetProvisionersPaginate c [WithProvisionerCursor cursor, WithProvisionerLimit 100]
      env).2.2 = .error err) :
    (GetProvisionersAux c cursor acc (env :: envs)).2.2 = .error err := by
  rcases hx : GetProvisionersPaginate c
    [WithProvisionerCursor cursor, WithProvisionerLimit 100] env with ⟨trace, c2, res⟩
  rw [hx] at hp
  simp only at hp
  subst hp
  simp [GetProvisionersAux, hx]

/-- The admins aggregation's result from a state equals its result from any
state the loop reaches from there. -/
theorem AdminsLoopReaches_result (c : AdminClient) (cursor : String) (acc : List Admin)
    (envs : List OpEnv) (c3 : AdminClient) (cursor3 : String) (acc3 : List Admin)
    (envs3 : List OpEnv)
    (h : AdminsLoopReaches c cursor acc envs c3 cursor3 acc3 envs3) :
    (GetAdminsAux c cursor acc envs).2.2 = (GetAdminsAux c3 cursor3 acc3 envs3).2.2 := by
  induction h with
  | refl c cursor acc envs => rfl
  | step c cursor acc env envs trace c2 resp c3 cursor3 acc3 envs3 hp hnc hrest ih =>
      rw [GetAdminsAux_step c cursor acc env envs trace c2 resp hp hnc]
      exact ih

/-- The provisioners aggregation's result from a state equals its result
from any state the loop reaches from there. -/
theorem ProvsLoopReaches_result (c : AdminClient) (cursor : String)
    (acc : List Provisioner) (envs : List OpEnv) (c3 : AdminClient) (cursor3 : String)
    (acc3 : List Provisioner) (envs3 : List OpEnv)
    (h : ProvsLoopReaches c cursor acc envs c3 cursor3 acc3 envs3) :
    (GetProvisionersAux c cursor acc envs).2.2 =
      (GetProvisionersAux c3 cursor3 acc3 envs3).2.2 := by
  induction h with
  | refl c cursor acc envs => rfl
  | step c cursor acc env envs trace c2 resp c3 cursor3 acc3 envs3 hp hnc hrest ih =>
      rw [GetProvisionersAux_step c cursor acc env envs trace c2 resp hp hnc]
      exact ih

/-- C5: if any page fetch during the admins or provisioners aggregation
fails — at whatever position the loop has reached, after any number of
successful earlier pages, retried or not — the whole aggregation aborts
and returns exactly that page's error with no result list; the items
accumulated from the earlier pages are discarded. -/
theorem C5_page_failure_aborts :
    (∀ (c : AdminClient) (opts : List AdminOption) (envs : List OpEnv)
        (c3 : AdminClient) (cursor3 : String) (acc3 : List Admin)
        (e : OpEnv) (rest : List OpEnv) (err : AdminClientError),
      AdminsLoopReaches c "" [] envs c3 cursor3 acc3 (e :: rest) →
      (GetAdminsPaginate c3 [WithAdminCursor cursor3, WithAdminLimit 100] e).2.2 =
        .error err →
      (GetAdmins c opts envs).2.2 = .error err ∧
      ∀ l, (GetAdmins c opts envs).2.2 ≠ .ok l) ∧
    (∀ (c : AdminClient) (popts : List AdminOption) (envs : List OpEnv)
        (c3 : AdminClient) (cursor3 : String) (acc3 : List Provisioner)
        (e : OpEnv) (rest : List OpEnv) (err : AdminClientError),
      ProvsLoopReaches c "" [] envs c3 cursor3 acc3 (e :: rest) →
      (GetProvisionersPaginate c3
        [WithProvisionerCursor cursor3, WithProvisionerLimit 100] e).2.2 = .error err →
      (GetProvisioners c popts envs).2.2 = .error err ∧
      ∀ l, (GetProvisioners c popts envs).2.2 ≠ .ok l) := by
  constructor
  · intro c opts envs c3 cursor3 acc3 e rest err hreach hfail
    have hA : (GetAdmins c opts envs).2.2 = .error err := by
      show (GetAdminsAux c "" [] envs).2.2 = .error err
      rw [AdminsLoopReaches_result c "" [] envs c3 cursor3 acc3 (e :: rest) hreach]
      exact GetAdminsAux_head_fail c3 cursor3 acc3 e rest err hfail
    refine ⟨hA, ?_⟩
    intro l hl
    rw [hA] at hl
    exact absurd hl (by simp)
  · intro c popts envs c3 cursor3 acc3 e rest err hreach hfail
    have hP : (GetProvisioners c popts envs).2.2 = .error err := by
      show (GetProvisionersAux c "" [] envs).2.2 = .error err
      rw [ProvsLoopReaches_result c "" [] envs c3 cursor3 acc3 (e :: rest) hreach]
      exact GetProvisionersAux_head_fail c3 cursor3 acc3 e rest err hfail
    refine ⟨hP, ?_⟩
    intro l hl
    rw [hP] at hl
    exact absurd hl (by simp)

/-- Witness for C5: the loop walks one successful page to reach page 2,
which answers 500 with a server error body that no retry predicate matches,
so the aggregation surfaces exactly that error. -/
theorem C5_page_failure_aborts_witness :
    (GetAdmins cNoneEx []
        [⟨hexEx, 1, ⟨[.response 200 (.adminsPageBody [⟨"a1"⟩] "cur1")], rbEx⟩⟩,
         ⟨hexEx, 2, ⟨[.response 500 (.adminErrBody "boom")], rbEx⟩⟩]).2.2 =
      .error (.serverErr "boom") :=
  (C5_page_failure_aborts.1 cNoneEx []
    [⟨hexEx, 1, ⟨[.response 200 (.adminsPageBody [⟨"a1"⟩] "cur1")], rbEx⟩⟩,
     ⟨hexEx, 2, ⟨[.response 500 (.adminErrBody "boom")], rbEx⟩⟩]
    cNoneEx "cur1" ([] ++ [⟨"a1"⟩])
    ⟨hexEx, 2, ⟨[.response 500 (.adminErrBody "boom")], rbEx⟩⟩ [] (.serverErr "boom")
    (.step cNoneEx "" [] ⟨hexEx, 1, ⟨[.response 200 (.adminsPageBody [⟨"a1"⟩] "cur1")], rbEx⟩⟩
      [⟨hexEx, 2, ⟨[.response 500 (.adminErrBody "boom")], rbEx⟩⟩]
      [⟨"GET", ⟨"/admin/admins", adminOptions.rawQuery ⟨"", 100⟩⟩,
        some (mintedToken cNoneEx "/admin/admins" jidEx 1), none⟩]
      cNoneEx ⟨[⟨"a1"⟩], "cur1"⟩ cNoneEx "cur1" ([] ++ [⟨"a1"⟩])
      [⟨hexEx, 2, ⟨[.response 500 (.adminErrBody "boom")], rbEx⟩⟩]
      (GetAdminsPaginate_page cNoneEx "" jidEx 1 [⟨"a1"⟩] "cur1" rbEx hexEx rfl)
      (by decide)
      (.refl cNoneEx "cur1" ([] ++ [⟨"a1"⟩])
        [⟨hexEx, 2, ⟨[.response 500 (.adminErrBody "boom")], rbEx⟩⟩]))
    rfl).1

/-- Every request a single admins page fetch issues carries exactly the
relayed cursor and limit 100 in its raw query. -/
theorem GetAdminsPaginate_rawQuery (c : AdminClient) (cursor : String) (env : OpEnv) :
    ∀ r ∈ (GetAdminsPaginate c [WithAdminCursor cursor, WithAdminLimit 100] env).1,
      r.url.rawQuery = adminOptions.rawQuery ⟨cursor, 100⟩ := by
  intro r hr
  rw [show GetAdminsPaginate c [WithAdminCursor cursor, WithAdminLimit 100] env =
      mintAndSend c "GET" (resolveRef ⟨"/admin/admins", adminOptions.rawQuery ⟨cursor, 100⟩⟩)
        none env
        (readJSONAdminsPage (resolveRef ⟨"/admin/admins", adminOptions.rawQuery ⟨cursor, 100⟩⟩))
    from rfl] at hr
  obtain ⟨jid, hj, rfl⟩ := mintAndSend_mem _ _ _ _ _ _ r hr
  exact resolveRef_rawQuery _

/-- Every request a single provisioners page fetch issues carries exactly
the relayed cursor and limit 100 in its raw query. -/
theorem GetProvisionersPaginate_rawQuery (c : AdminClient) (cursor : String) (env : OpEnv) :
    ∀ r ∈ (GetProvisionersPaginate c
        [WithProvisionerCursor cursor, WithProvisionerLimit 100] env).1,
      r.url.rawQuery = provisionerOptions.rawQuery ⟨cursor, 100, "", ""⟩ := by
  intro r hr
  rw [show GetProvisionersPaginate c
        [WithProvisionerCursor cursor, WithProvisionerLimit 100] env =
      mintAndSend c "GET"
        (resolveRef ⟨"/admin/provisioners", provisionerOptions.rawQuery ⟨cursor, 100, "", ""⟩⟩)
        none env
        (readJSONProvsPage
          (resolveRef ⟨"/admin/provisioners", provisionerOptions.rawQuery ⟨cursor, 100, "", ""⟩⟩))
    from rfl] at hr
  obtain ⟨jid, hj, rfl⟩ := mintAndSend_mem _ _ _ _ _ _ r hr
  exact resolveRef_rawQuery _

/-- Along the whole admins aggregation loop, every issued request's query is
some relayed cursor with limit 100. -/
theorem GetAdminsAux_rawQuery (envs : List OpEnv) :
    ∀ (c : AdminClient) (cursor : String) (admins : List Admin),
      ∀ pg ∈ (GetAdminsAux c cursor admins envs).1, ∀ r ∈ pg,
        ∃ cur, r.url.rawQuery = adminOptions.rawQuery ⟨cur, 100⟩ := by
  induction envs with
  | nil =>
      intro c cursor admins pg hpg
      simp [GetAdminsAux] at hpg
  | cons env rest ih =>
      intro c cursor admins pg hpg r hr
      rcases hp : GetAdminsPaginate c [WithAdminCursor cursor, WithAdminLimit 100] env
        with ⟨trace, c2, res⟩
      have hq := GetAdminsPaginate_rawQuery c cursor env
      rw [hp] at hq
      simp only [GetAdminsAux, hp] at hpg
      rcases res with e | resp
      · simp at hpg
        subst hpg
        exact ⟨cursor, hq r hr⟩
      · rcases hAux : GetAdminsAux c2 resp.nextCursor (admins ++ resp.admins) rest
          with ⟨traces, c3, res2⟩
        by_cases hnc : resp.nextCursor = ""
        · simp [hnc] at hpg
          subst hpg
          exact ⟨cursor, hq r hr⟩
        · simp [hnc, hAux] at hpg
          rcases hpg with hpg | hpg
          · subst hpg
            exact ⟨cursor, hq r hr⟩
          · refine ih c2 resp.nextCursor (admins ++ resp.admins) pg ?_ r hr
            rw [hAux]
            exact hpg

/-- Along the whole provisioners aggregation loop, every issued request's
query is some relayed cursor with limit 100. -/
theorem GetProvisionersAux_rawQuery (envs : List OpEnv) :
    ∀ (c : AdminClient) (cursor : String) (provs : List Provisioner),
      ∀ pg ∈ (GetProvisionersAux c cursor provs envs).1, ∀ r ∈ pg,
        ∃ cur, r.url.rawQuery = provisionerOptions.rawQuery ⟨cur, 100, "", ""⟩ := by
  induction envs with
  | nil =>
      intro c cursor provs pg hpg
      simp [GetProvisionersAux] at hpg
  | cons env rest ih =>
      intro c cursor provs pg hpg r hr
      rcases hp : GetProvisionersPaginate c
          [WithProvisionerCursor cursor, WithProvisionerLimit 100] env
        with ⟨trace, c2, res⟩
      have hq := GetProvisionersPaginate_rawQuery c cursor env
      rw [hp] at hq
      simp only [GetProvisionersAux, hp] at hpg
      rcases res with e | resp
      · simp at hpg
        subst hpg
        exact ⟨cursor, hq r hr⟩
      · rcases hAux : GetProvisionersAux c2 resp.nextCursor (provs ++ resp.provisioners) rest
          with ⟨traces, c3, res2⟩
        by_cases hnc : resp.nextCursor = ""
        · simp [hnc] at hpg
          subst hpg
          exact ⟨cursor, hq r hr⟩
        · simp [hnc, hAux] at hpg
          rcases hpg with hpg | hpg
          · subst hpg
            exact ⟨cursor, hq r hr⟩
          · refine ih c2 resp.nextCursor (provs ++ resp.provisioners) pg ?_ r hr
            rw [hAux]
            exact hpg

/-- C10: the admins and provisioners aggregations ignore the options the
caller passes — for any two option lists the run is identical — and every
page fetch they issue carries a relayed cursor with the fixed limit 100, so
a caller-supplied cursor or limit never affects the aggregation. -/
theorem C10_caller_options_ignored :
    (∀ (c : AdminClient) (opts opts2 : List AdminOption) (envs : List OpEnv),
      GetAdmins c opts envs = GetAdmins c opts2 envs) ∧
    (∀ (c : AdminClient) (opts opts2 : List AdminOption) (envs : List OpEnv),
      GetProvisioners c opts envs = GetProvisioners c opts2 envs) ∧
    (∀ (c : AdminClient) (opts : List AdminOption) (envs : List OpEnv),
      ∀ pg ∈ (GetAdmins c opts envs).1, ∀ r ∈ pg,
        ∃ cur, r.url.rawQuery = adminOptions.rawQuery ⟨cur, 100⟩) ∧
    (∀ (c : AdminClient) (opts : List AdminOption) (envs : List OpEnv),
      ∀ pg ∈ (GetProvisioners c opts envs).1, ∀ r ∈ pg,
        ∃ cur, r.url.rawQuery = provisionerOptions.rawQuery ⟨cur, 100, "", ""⟩) := by
  refine ⟨fun c opts opts2 envs => rfl, fun c opts opts2 envs => rfl, ?_, ?_⟩
  · intro c opts envs
    exact GetAdminsAux_rawQuery envs c "" []
  · intro c opts envs
    exact GetProvisionersAux_rawQuery envs c "" []

/-- Witness for C10: a caller-supplied cursor option is ignored; the single
page fetch still goes out with the empty cursor and limit 100. -/
theorem C10_caller_options_ignored_witness :
    ∃ cur, (Request.mk "GET" ⟨"/admin/admins", adminOptions.rawQuery ⟨"", 100⟩⟩
        (some (mintedToken cEx "/admin/admins" jidEx 1)) none).url.rawQuery =
      adminOptions.rawQuery ⟨cur, 100⟩ :=
  C10_caller_options_ignored.2.2.1 cEx [WithAdminCursor "zzz"]
    [⟨hexEx, 1, ⟨[.response 200 (.adminsPageBody [] "")], rbEx⟩⟩]
    [⟨"GET", ⟨"/admin/admins", adminOptions.rawQuery ⟨"", 100⟩⟩,
      some (mintedToken cEx "/admin/admins" jidEx 1), none⟩]
    (by decide)
    (Request.mk "GET" ⟨"/admin/admins", adminOptions.rawQuery ⟨"", 100⟩⟩
      (some (mintedToken cEx "/admin/admins" jidEx 1)) none)
    (by decide)

/-- When the first response's status is recognized and the transport
rebuild succeeds, the mint-and-send tail replays the identical request — the
same minted token, same JWT id, same validity window — and only the
transport of the client changes. -/
theorem mintAndSend_retry_shape {α : Type} (c : AdminClient) (method : String) (u : URL)
    (body : Option String) (env : OpEnv) (decode : Body → Except AdminClientError α)
    (jid : String) (s1 : Nat) (b1 : Body) (rest : List HttpOutcome) (rb : RebuildFn)
    (f : RetryFunc) (tr : Transport)
    (hj : env.hexDraw randutilHexLen = some jid) (hf : c.retryFunc = some f)
    (hs1 : 400 ≤ s1) (hfs : f s1 = true) (hrb : rb c.opts = some tr)
    (ho : env.http = ⟨.response s1 b1 :: rest, rb⟩) :
    (mintAndSend c method u body env decode).1 =
      [⟨method, u, some (mintedToken c u.path jid env.now), body⟩,
       ⟨method, u, some (mintedToken c u.path jid env.now), body⟩] ∧
    (mintAndSend c method u body env decode).2.1 = { c with transport := tr } := by
  have hro : (retryOnError c s1 rb).retry = true := by
    rw [retryOnError_recognized c s1 rb f tr hf hfs hrb]
  have ht := execWithRetry_retry_trace c
    ⟨method, u, some (mintedToken c u.path jid env.now), body⟩ s1 b1 rest rb hs1 hro
  constructor
  · rw [mintAndSend_eq c method u body env decode jid hj, ho, finishExec_fst]
    exact ht.1
  · rw [mintAndSend_eq c method u body env decode jid hj, ho, finishExec_client, ht.2,
      retryOnError_recognized c s1 rb f tr hf hfs hrb]

/-- Environment of the C2 run: a 401 the predicate recognizes, a transport
rebuild that succeeds, then a second 401. -/
def envC2 : OpEnv :=
  ⟨hexEx, 5,
    ⟨[.response 401 (.adminErrBody "first"), .response 401 (.adminErrBody "again")], rbEx⟩⟩

/-- Counterexample to C2: at this concrete input CreateAdmin does retry (two
requests are sent), but the replayed request carries exactly the token of
the first attempt — same JWT id, same validity window — not a freshly
minted one; the list of sent Authorization tokens has a duplicate. -/
theorem C2_counterexample :
    (CreateAdmin cEx "rb" envC2).1.length = 2 ∧
    (CreateAdmin cEx "rb" envC2).1.map Request.authToken =
      [some (mintedToken cEx "/admin/admins" jidEx 5),
       some (mintedToken cEx "/admin/admins" jidEx 5)] ∧
    ¬ ((CreateAdmin cEx "rb" envC2).1.map Request.authToken).Nodup := by
  refine ⟨by decide, by decide, by decide⟩

/-- C2 amended: when the retry controller signals retry after a ≥400
response, the replayed request is identical to the first one — it carries
the very token minted before the first attempt (same JWT id and validity
window); no fresh token is minted for the replay, only the transport is
rebuilt and swapped.  Stated for the shared send block and for the two
operations the claim cites. -/
theorem C2_replay_reuses_token :
    (∀ (c : AdminClient) (req : Request) (s1 : Nat) (b1 : Body) (rest : List HttpOutcome)
        (rb : RebuildFn), 400 ≤ s1 → (retryOnError c s1 rb).retry = true →
      (execWithRetry c req ⟨.response s1 b1 :: rest, rb⟩).1 = [req, req]) ∧
    (∀ (c : AdminClient) (rb2 : String) (env : OpEnv) (jid : String) (s1 : Nat) (b1 : Body)
        (rest : List HttpOutcome) (rb : RebuildFn) (f : RetryFunc) (tr : Transport),
      env.hexDraw randutilHexLen = some jid → c.retryFunc = some f → 400 ≤ s1 →
      f s1 = true → rb c.opts = some tr → env.http = ⟨.response s1 b1 :: rest, rb⟩ →
      (CreateAdmin c rb2 env).1 =
        [⟨"POST", ⟨"/admin/admins", ""⟩,
           some (mintedToken c "/admin/admins" jid env.now), some rb2⟩,
         ⟨"POST", ⟨"/admin/admins", ""⟩,
           some (mintedToken c "/admin/admins" jid env.now), some rb2⟩] ∧
      (CreateAdmin c rb2 env).2.1 = { c with transport := tr }) ∧
    (∀ (c : AdminClient) (opts : List AdminOption) (o : adminOptions) (env : OpEnv)
        (jid : String) (s1 : Nat) (b1 : Body) (rest : List HttpOutcome) (rb : RebuildFn)
        (f : RetryFunc) (tr : Transport),
      adminOptions.applyAll {} opts = .ok o →
      env.hexDraw randutilHexLen = some jid → c.retryFunc = some f → 400 ≤ s1 →
      f s1 = true → rb c.opts = some tr → env.http = ⟨.response s1 b1 :: rest, rb⟩ →
      (GetAdminsPaginate c opts env).1 =
        [⟨"GET", ⟨"/admin/admins", o.rawQuery⟩,
           some (mintedToken c "/admin/admins" jid env.now), none⟩,
         ⟨"GET", ⟨"/admin/admins", o.rawQuery⟩,
           some (mintedToken c "/admin/admins" jid env.now), none⟩] ∧
      (GetAdminsPaginate c opts env).2.1 = { c with transport := tr }) := by
  refine ⟨?_, ?_, ?_⟩
  · intro c req s1 b1 rest rb hs1 hro
    exact (execWithRetry_retry_trace c req s1 b1 rest rb hs1 hro).1
  · intro c rb2 env jid s1 b1 rest rb f tr hj hf hs1 hfs hrb ho
    exact mintAndSend_retry_shape c "POST" (resolveRef ⟨"/admin/admins", ""⟩) (some rb2) env
      (readProtoJSONAdmin (resolveRef ⟨"/admin/admins", ""⟩)) jid s1 b1 rest rb f tr
      hj hf hs1 hfs hrb ho
  · intro c opts o env jid s1 b1 rest rb f tr happly hj hf hs1 hfs hrb ho
    simp only [GetAdminsPaginate, happly]
    exact mintAndSend_retry_shape c "GET" (resolveRef ⟨"/admin/admins", o.rawQuery⟩) none env
      (readJSONAdminsPage (resolveRef ⟨"/admin/admins", o.rawQuery⟩)) jid s1 b1 rest rb f tr
      hj hf hs1 hfs hrb ho

/-- Witness for the amended C2 at the concrete C2 environment. -/
theorem C2_replay_reuses_token_witness :
    (CreateAdmin cEx "rb" envC2).1 =
      [⟨"POST", ⟨"/admin/admins", ""⟩, some (mintedToken cEx "/admin/admins" jidEx 5), some "rb"⟩,
       ⟨"POST", ⟨"/admin/admins", ""⟩,
         some (mintedToken cEx "/admin/admins" jidEx 5), some "rb"⟩] ∧
    (CreateAdmin cEx "rb" envC2).2.1 = { cEx with transport := 2 } :=
  C2_replay_reuses_token.2.1 cEx "rb" envC2 jidEx 401 (.adminErrBody "first")
    [.response 401 (.adminErrBody "again")] rbEx fEx 2 rfl rfl (by decide) (by decide) rfl rfl

/-- A request is authorized when it carries a token whose audience is its
own URL path. -/
def requestAuthorized (r : Request) : Prop :=
  ∃ t, r.authToken = some t ∧ t.audience = r.url.path

/-- Every request of the mint-and-send tail is authorized: it carries the
token minted for its own target path. -/
theorem mintAndSend_authorized {α : Type} (c : AdminClient) (method : String) (u : URL)
    (body : Option String) (env : OpEnv) (decode : Body → Except AdminClientError α) :
    ∀ r ∈ (mintAndSend c method u body env decode).1, requestAuthorized r := by
  intro r hr
  obtain ⟨jid, hj, rfl⟩ := mintAndSend_mem c method u body env decode r hr
  exact ⟨mintedToken c u.path jid env.now, rfl, rfl⟩

/-- Counterexample to C6: the GET issued by GetAdmin at this concrete input
carries no Authorization token at all. -/
theorem C6_counterexample :
    (GetAdmin cEx "x" ⟨hexEx, 5, ⟨[.response 200 (.adminBody ⟨"a"⟩)], rbEx⟩⟩).1.map
      Request.authToken = [none] := by decide

/-- C6 amended: the nine token-minting operations attach, to every request
they send, an Authorization header holding the Admin Token minted for that
call and scoped to the request's own path; GetAdmin alone sends its GET with
no Authorization header (no token is minted for it). -/
theorem C6_auth_header :
    (∀ (c : AdminClient) (id : String) (env : OpEnv),
      ∀ r ∈ (GetAdmin c id env).1, r.authToken = none) ∧
    (∀ c opts env, ∀ r ∈ (GetAdminsPaginate c opts env).1, requestAuthorized r) ∧
    (∀ c rb2 env, ∀ r ∈ (CreateAdmin c rb2 env).1, requestAuthorized r) ∧
    (∀ c id env, ∀ r ∈ (RemoveAdmin c id env).1, requestAuthorized r) ∧
    (∀ c id rb2 env, ∀ r ∈ (UpdateAdmin c id rb2 env).1, requestAuthorized r) ∧
    (∀ c opts env, ∀ r ∈ (GetProvisioner c opts env).1, requestAuthorized r) ∧
    (∀ c opts env, ∀ r ∈ (GetProvisionersPaginate c opts env).1, requestAuthorized r) ∧
    (∀ c opts env, ∀ r ∈ (RemoveProvisioner c opts env).1, requestAuthorized r) ∧
    (∀ c p env, ∀ r ∈ (CreateProvisioner c p env).1, requestAuthorized r) ∧
    (∀ c n p env, ∀ r ∈ (UpdateProvisioner c n p env).1, requestAuthorized r) := by
  refine ⟨?_, ?_, ?_, ?_, ?_, ?_, ?_, ?_, ?_, ?_⟩
  · intro c id env r hr
    rw [show GetAdmin c id env =
      finishExec c ⟨"GET", resolveRef ⟨pathJoin ["admin", "admins", id], ""⟩, none, none⟩
        env.http (readProtoJSONAdmin (resolveRef ⟨pathJoin ["admin", "admins", id], ""⟩))
      from rfl, finishExec_fst] at hr
    rw [execWithRetry_mem _ _ _ r hr]
  · intro c opts env r hr
    rcases h : adminOptions.applyAll {} opts with e | o
    · simp only [GetAdminsPaginate, h] at hr
      simp at hr
    · simp only [GetAdminsPaginate, h] at hr
      exact mintAndSend_authorized _ _ _ _ _ _ r hr
  · intro c rb2 env r hr
    exact mintAndSend_authorized _ _ _ _ _ _ r hr
  · intro c id env r hr
    exact mintAndSend_authorized _ _ _ _ _ _ r hr
  · intro c id rb2 env r hr
    exact mintAndSend_authorized _ _ _ _ _ _ r hr
  · intro c opts env r hr
    rcases h : provisionerOptions.applyAll {} opts with e | o
    · simp only [GetProvisioner, h] at hr
      simp at hr
    · simp only [GetProvisioner, h] at hr
      split at hr
      · simp at hr
      · exact mintAndSend_authorized _ _ _ _ _ _ r hr
  · intro c opts env r hr
    rcases h : provisionerOptions.applyAll {} opts with e | o
    · simp only [GetProvisionersPaginate, h] at hr
      simp at hr
    · simp only [GetProvisionersPaginate, h] at hr
      exact mintAndSend_authorized _ _ _ _ _ _ r hr
  · intro c opts env r hr
    rcases h : provisionerOptions.applyAll {} opts with e | o
    · simp only [RemoveProvisioner, h] at hr
      simp at hr
    · simp only [RemoveProvisioner, h] at hr
      split at hr
      · simp at hr
      · exact mintAndSend_authorized _ _ _ _ _ _ r hr
  · intro c p env r hr
    exact mintAndSend_authorized _ _ _ _ _ _ r hr
  · intro c n p env r hr
    exact mintAndSend_authorized _ _ _ _ _ _ r hr

/-- Witness for the amended C6: GetAdmin's concrete request has no token,
CreateAdmin's concrete request is authorized. -/
theorem C6_auth_header_witness :
    (Request.mk "GET" ⟨"/admin/admins/x", ""⟩ none none).authToken = none ∧
    requestAuthorized (Request.mk "POST" ⟨"/admin/admins", ""⟩
      (some (mintedToken cEx "/admin/admins" jidEx 5)) (some "body")) :=
  ⟨C6_auth_header.1 cEx "x" ⟨hexEx, 5, ⟨[.response 200 (.adminBody ⟨"a"⟩)], rbEx⟩⟩
      ⟨"GET", ⟨"/admin/admins/x", ""⟩, none, none⟩ (by decide),
    C6_auth_header.2.2.1 cEx "body" ⟨hexEx, 5, ⟨[.response 200 (.adminBody ⟨"a"⟩)], rbEx⟩⟩
      ⟨"POST", ⟨"/admin/admins", ""⟩, some (mintedToken cEx "/admin/admins" jidEx 5),
        some "body"⟩ (by decide)⟩

/-- C8: with neither id nor name set, GetProvisioner and RemoveProvisioner
fail locally with the configuration error, issue zero requests, and consult
nothing of the environment (no token minted, no HTTP call); with both set,
the id selector deterministically takes precedence: every issued request
targets `/admin/provisioners/id` carrying the options' raw query, which for
a plain id selector is `id=` followed by the id value. -/
theorem C8_provisioner_selector :
    (∀ (c : AdminClient) (opts : List ProvisionerOption) (o : provisionerOptions)
        (env env2 : OpEnv),
      provisionerOptions.applyAll {} opts = .ok o → o.id = "" → o.name = "" →
      GetProvisioner c opts env =
        ([], c, .error (.optionErr "must set either name or id in method options")) ∧
      GetProvisioner c opts env = GetProvisioner c opts env2) ∧
    (∀ (c : AdminClient) (opts : List ProvisionerOption) (o : provisionerOptions)
        (env env2 : OpEnv),
      provisionerOptions.applyAll {} opts = .ok o → o.id = "" → o.name = "" →
      RemoveProvisioner c opts env =
        ([], c, .error (.optionErr "must set either name or id in method options")) ∧
      RemoveProvisioner c opts env = RemoveProvisioner c opts env2) ∧
    (∀ (c : AdminClient) (opts : List ProvisionerOption) (o : provisionerOptions) (env : OpEnv),
      provisionerOptions.applyAll {} opts = .ok o → 0 < o.id.length → 0 < o.name.length →
      ∀ r ∈ (GetProvisioner c opts env).1,
        r.url = ⟨"/admin/provisioners/id", provisionerOptions.rawQuery o⟩) ∧
    (∀ (c : AdminClient) (opts : List ProvisionerOption) (o : provisionerOptions) (env : OpEnv),
      provisionerOptions.applyAll {} opts = .ok o → 0 < o.id.length → 0 < o.name.length →
      ∀ r ∈ (RemoveProvisioner c opts env).1,
        r.url = ⟨"/admin/provisioners/id", provisionerOptions.rawQuery o⟩) ∧
    (∀ o : provisionerOptions, o.cursor = "" → o.limit ≤ 0 → 0 < o.id.length →
      provisionerOptions.rawQuery o = "id=" ++ o.id) := by
  refine ⟨?_, ?_, ?_, ?_, ?_⟩
  · intro c opts o env env2 happly hid hname
    have h1 : ∀ e : OpEnv, GetProvisioner c opts e =
        ([], c, .error (.optionErr "must set either name or id in method options")) := by
      intro e
      simp only [GetProvisioner, happly]
      simp [hid, hname]
    exact ⟨h1 env, by rw [h1 env, h1 env2]⟩
  · intro c opts o env env2 happly hid hname
    have h1 : ∀ e : OpEnv, RemoveProvisioner c opts e =
        ([], c, .error (.optionErr "must set either name or id in method options")) := by
      intro e
      simp only [RemoveProvisioner, happly]
      simp [hid, hname]
    exact ⟨h1 env, by rw [h1 env, h1 env2]⟩
  · intro c opts o env happly hid hname r hr
    simp only [GetProvisioner, happly] at hr
    simp only [hid, if_true] at hr
    obtain ⟨jid, hj, rfl⟩ := mintAndSend_mem _ _ _ _ _ _ r hr
    exact rfl
  · intro c opts o env happly hid hname r hr
    simp only [RemoveProvisioner, happly] at hr
    simp only [hid, if_true] at hr
    obtain ⟨jid, hj, rfl⟩ := mintAndSend_mem _ _ _ _ _ _ r hr
    exact rfl
  · intro o hcur hlim hid
    have h1 : provisionerOptions.rawQuery o = queryEncode [("id", o.id)] := by
      simp [provisionerOptions.rawQuery, hcur, hid, not_lt.mpr hlim]
    rw [h1]
    show "id" ++ "=" ++ o.id = _
    rw [show ("id" ++ "=" : String) = "id=" from rfl]

/-- Witness for C8: no selector set fails locally with no request; with
both id and name set the id wins and the request targets the
`/admin/provisioners/id` form with query `id=p1`. -/
theorem C8_provisioner_selector_witness :
    (GetProvisioner cEx [] ⟨hexEx, 5, ⟨[], rbEx⟩⟩ =
      ([], cEx, .error (.optionErr "must set either name or id in method options"))) ∧
    ((Request.mk "GET" ⟨"/admin/provisioners/id", "id=p1"⟩
        (some (mintedToken cEx "/admin/provisioners/id" jidEx 5)) none).url =
      ⟨"/admin/provisioners/id", provisionerOptions.rawQuery ⟨"", 0, "p1", "n1"⟩⟩) ∧
    provisionerOptions.rawQuery ⟨"", 0, "p1", ""⟩ = "id=" ++ "p1" :=
  ⟨(C8_provisioner_selector.1 cEx [] ⟨"", 0, "", ""⟩ ⟨hexEx, 5, ⟨[], rbEx⟩⟩
      ⟨hexEx, 5, ⟨[], rbEx⟩⟩ rfl rfl rfl).1,
    C8_provisioner_selector.2.2.1 cEx [WithProvisionerID "p1", WithProvisionerName "n1"]
      ⟨"", 0, "p1", "n1"⟩ ⟨hexEx, 5, ⟨[.response 200 (.provBody ⟨"p"⟩)], rbEx⟩⟩
      rfl (by decide) (by decide)
      ⟨"GET", ⟨"/admin/provisioners/id", "id=p1"⟩,
        some (mintedToken cEx "/admin/provisioners/id" jidEx 5), none⟩ (by decide),
    C8_provisioner_selector.2.2.2.2 ⟨"", 0, "p1", ""⟩ rfl (by decide) (by decide)⟩

end AdminClientGo
